import Mathlib

/-!
Verification of the cycling-quality-index engine
(`cycling_quality_index.py`), shallowly embedded in Lean 4.

Conventions of the embedding:
* OSM tag values are strings or numbers (`TagVal`); a missing tag is `none`.
* Python floats are modelled as rationals wherever the source only does
  field arithmetic, and as reals where the source uses `math.e ** x`
  (the logistic width curves); the source rounds the width factor to
  three decimals immediately, so every value downstream of the curve is
  again a rational.
* Python `round` (banker's rounding, round half to even) is modelled
  exactly by `roundHEQ` / `roundHER`.
* Python truthiness (`if x:`) is modelled by `tTruthy` on tag values and
  by `≠ 0` on numbers, matching `None`/`NULL`/`0`/`""` being falsy.
* The helper module `definitions.py` and the configuration module
  `parameter.py` are not part of the sources; the few helpers used here
  (`getNumber`, `getDelimitedValues`, `addDelimitedValue`, `getAccess`,
  `deriveSeparation`, `getWeakestSurfaceValue`) and the configuration
  tables are modelled from the specification and marked as such.
-/

namespace CQI

/-- Round half to even on rationals, as Python's `round(x)` (result `int`). -/
def roundHEQ (x : ℚ) : ℤ :=
  if x - ⌊x⌋ < 1/2 then ⌊x⌋
  else if 1/2 < x - ⌊x⌋ then ⌊x⌋ + 1
  else if ⌊x⌋ % 2 = 0 then ⌊x⌋ else ⌊x⌋ + 1

/-- Round half to even on reals (same definition over ℝ). -/
noncomputable def roundHER (x : ℝ) : ℤ :=
  if x - ⌊x⌋ < 1/2 then ⌊x⌋
  else if 1/2 < x - ⌊x⌋ then ⌊x⌋ + 1
  else if ⌊x⌋ % 2 = 0 then ⌊x⌋ else ⌊x⌋ + 1

/-- Python's `round(x, 3)` applied to a real, yielding the exact rational. -/
noncomputable def roundQ3R (x : ℝ) : ℚ := (roundHER (1000 * x) : ℚ) / 1000

/-- Python's `round(x, 2)` on a rational. -/
def roundQ2 (x : ℚ) : ℚ := (roundHEQ (100 * x) : ℚ) / 100

/-- An OSM tag value: a string or a number. -/
inductive TagVal where
  | s : String → TagVal
  | n : ℚ → TagVal
  deriving DecidableEq

/-- Python truthiness of an optional attribute value:
`NULL`, the empty string and `0` are falsy. -/
def tTruthy : Option TagVal → Bool
  | none => false
  | some (.s t) => !(t == "")
  | some (.n q) => !(q == 0)

def isPrefixList : List Char → List Char → Bool
  | [], _ => true
  | _ :: _, [] => false
  | c :: cs, d :: ds => c == d && isPrefixList cs ds

def hasSubList (needle : List Char) : List Char → Bool
  | [] => isPrefixList needle []
  | c :: cs => isPrefixList needle (c :: cs) || hasSubList needle cs

/-- Python's substring containment `needle in hay`. -/
def strContains (hay needle : String) : Bool :=
  hasSubList needle.toList hay.toList

/-- Split a character list at every occurrence of `c` (Python
`str.split(c)` for a one-character separator). -/
def splitOnChar (c : Char) : List Char → List (List Char)
  | [] => [[]]
  | d :: rest =>
    match splitOnChar c rest with
    | [] => [[d]]
    | h :: t => if d == c then [] :: h :: t else (d :: h) :: t

/-- Python `s.replace(',', ';')`. -/
def commasToSemis (s : String) : String :=
  String.mk (s.toList.map (fun c => if c == ',' then ';' else c))

def digitsVal (cs : List Char) : Option ℕ :=
  if cs.isEmpty then none
  else if cs.all Char.isDigit then
    some (cs.foldl (fun a c => 10 * a + (c.toNat - 48)) 0)
  else none

def parseNumCore (cs : List Char) : Option ℚ :=
  match splitOnChar '.' cs with
  | [a] => (digitsVal a).map (fun v => (v : ℚ))
  | [a, b] =>
    match digitsVal a, digitsVal b with
    | some va, some vb => some ((va : ℚ) + (vb : ℚ) / (10 ^ b.length))
    | _, _ => none
  | _ => none

/-- Parse a decimal number from a tag string; `none` when malformed. -/
def parseNum (s : String) : Option ℚ :=
  match s.toList with
  | '-' :: rest => (parseNumCore rest).map Neg.neg
  | cs => parseNumCore cs

/-- One way segment as the per-feature loop sees it: the raw tag map plus the
attributes filled in by the earlier (external) sidepath/offset stages
(`side`, `way_type`, `proc_sidepath`, `proc_highway`, `proc_maxspeed`). -/
structure Seg where
  tags : List (String × TagVal)
  side : Option String := none
  typeAttr : Option String := none
  wayType : Option String := none
  procSidepath : Option String := none
  procHighway : Option String := none
  procMaxspeed : Option ℚ := none
  deriving DecidableEq

/-- `feature.attribute(k)`: `none` models QGIS `NULL`. -/
def getTag (seg : Seg) (k : String) : Option TagVal :=
  (seg.tags.find? (fun p => p.1 == k)).map Prod.snd

/-- Add/override one tag (used to compare otherwise-identical records). -/
def setTag (seg : Seg) (k : String) (v : TagVal) : Seg :=
  { seg with tags := (k, v) :: seg.tags }

/-- Modelled from the spec: `definitions.getNumber` — parses a numeric tag
value; absent, non-numeric or malformed values are treated as absent, which
behaves as `0` both in truthiness tests and in sums. -/
def getNumber (v : Option TagVal) : ℚ :=
  match v with
  | some (.n q) => q
  | some (.s t) => (parseNum t).getD 0
  | none => 0

/-- Python `x == "t"` for an attribute value. -/
def valIs (v : Option TagVal) (t : String) : Bool := v == some (.s t)

/-- Python `x in [list of strings]` for an attribute value. -/
def valMem (v : Option TagVal) (l : List String) : Bool := l.any (valIs v)

def asStr : Option TagVal → Option String
  | some (.s t) => some t
  | _ => none

def lookup? {α : Type} (t : List (String × α)) (k : String) : Option α :=
  (t.find? (fun p => p.1 == k)).map Prod.snd

def lookupD {α : Type} (t : List (String × α)) (k : String) (d : α) : α :=
  (lookup? t k).getD d

/-- Python `v in dict` (key membership) for an attribute value. -/
def isKey {α : Type} (t : List (String × α)) (v : Option TagVal) : Bool :=
  match v with
  | some (.s k) => t.any (fun p => p.1 == k)
  | _ => false

/-- Key membership for a plain string. -/
def isKeyStr {α : Type} (t : List (String × α)) (k : String) : Bool :=
  t.any (fun p => p.1 == k)

/-- The configuration tables (`parameter.py`, not part of the sources).
The structure lists exactly the fields the engine reads. -/
structure Config where
  default_oneway_cycle_track : String
  default_oneway_cycle_lane : String
  default_highway_width_dict : List (String × ℚ)
  default_highway_width_fallback : ℚ
  default_width_traffic_lane : ℚ
  default_width_bus_lane : ℚ
  default_width_cycle_lane : ℚ
  default_width_parking_parallel : ℚ
  default_width_parking_diagonal : ℚ
  default_width_parking_perpendicular : ℚ
  default_cycleway_surface_lanes : String
  default_cycleway_surface_tracks : String
  default_track_surface_dict : List (String × String)
  default_highway_surface_dict : List (String × String)
  surface_factor_dict : List (String × ℚ)
  smoothness_factor_dict : List (String × ℚ)
  highway_factor_dict : List (String × ℚ)
  highway_factor_dict_weights : List (String × ℚ)
  maxspeed_factor_dict : List (ℚ × ℚ)
  base_index_dict : List (String × ℤ)
  motor_vehicle_access_index_dict : List (String × ℤ)
  mandatory_traffic_sign_list : List String
  not_mandatory_traffic_sign_list : List String
  cycling_highway_prohibition_list : List String
  data_incompleteness_dict : List (String × ℚ)
  right_hand_traffic : Bool

/-- Modelled from the spec: representative configuration values
(`parameter.py` is not part of the sources; the spec fixes the shape of the
tables, not their numbers). -/
def mCfg : Config where
  default_oneway_cycle_track := "no"
  default_oneway_cycle_lane := "yes"
  default_highway_width_dict :=
    [("path", 2), ("footway", 2), ("cycleway", 2), ("residential", 6),
     ("tertiary", 13/2), ("secondary", 7), ("primary", 8), ("service", 9/2),
     ("track", 5/2), ("living_street", 9/2)]
  default_highway_width_fallback := 11/2
  default_width_traffic_lane := 16/5
  default_width_bus_lane := 9/2
  default_width_cycle_lane := 8/5
  default_width_parking_parallel := 11/5
  default_width_parking_diagonal := 9/2
  default_width_parking_perpendicular := 5
  default_cycleway_surface_lanes := "asphalt"
  default_cycleway_surface_tracks := "paving_stones"
  default_track_surface_dict :=
    [("grade1", "asphalt"), ("grade2", "compacted"), ("grade3", "gravel"),
     ("grade4", "ground"), ("grade5", "ground")]
  default_highway_surface_dict :=
    [("path", "ground"), ("track", "ground"), ("footway", "paving_stones"),
     ("residential", "asphalt"), ("service", "asphalt"),
     ("tertiary", "asphalt"), ("secondary", "asphalt"), ("primary", "asphalt"),
     ("cycleway", "asphalt"), ("living_street", "asphalt")]
  surface_factor_dict :=
    [("asphalt", 1), ("concrete", 1), ("paving_stones", 7/10),
     ("compacted", 7/10), ("fine_gravel", 1/2), ("sett", 9/20),
     ("cobblestone", 3/10), ("gravel", 1/4), ("ground", 1/5), ("sand", 3/20)]
  smoothness_factor_dict :=
    [("excellent", 11/10), ("good", 1), ("intermediate", 7/10),
     ("bad", 3/10), ("very_bad", 3/20), ("horrible", 1/10)]
  highway_factor_dict :=
    [("primary", 3/5), ("primary_link", 3/5), ("secondary", 7/10),
     ("secondary_link", 7/10), ("tertiary", 4/5), ("tertiary_link", 4/5),
     ("unclassified", 9/10), ("residential", 1), ("road", 9/10),
     ("living_street", 11/10)]
  highway_factor_dict_weights :=
    [("cycle lane (advisory)", 4/5), ("cycle lane (exclusive)", 7/10),
     ("cycle lane (central)", 4/5), ("cycle lane (protected)", 1/2),
     ("cycle track", 1/2), ("shared path", 2/5), ("segregated path", 2/5),
     ("shared footway", 2/5), ("crossing", 7/10), ("link", 7/10),
     ("shared bus lane", 9/10), ("bicycle road", 1), ("shared road", 1),
     ("shared traffic lane", 1), ("track or service", 1)]
  maxspeed_factor_dict :=
    [(30, 1), (50, 4/5), (60, 7/10), (80, 3/5), (100, 1/2)]
  base_index_dict :=
    [("cycle path", 100), ("cycle track", 90), ("shared path", 70),
     ("segregated path", 80), ("shared footway", 50), ("crossing", 60),
     ("link", 60), ("cycle lane (advisory)", 70), ("cycle lane (exclusive)", 80),
     ("cycle lane (protected)", 90), ("cycle lane (central)", 60),
     ("bicycle road", 90), ("shared road", 60), ("shared traffic lane", 60),
     ("shared bus lane", 65), ("track or service", 65)]
  motor_vehicle_access_index_dict :=
    [("no", 100), ("agricultural", 90), ("forestry", 90), ("delivery", 85),
     ("destination", 85), ("private", 90), ("customers", 85), ("permit", 85)]
  mandatory_traffic_sign_list := ["237", "240", "241"]
  not_mandatory_traffic_sign_list := ["1022-10", "239"]
  cycling_highway_prohibition_list := ["motorway", "motorway_link"]
  data_incompleteness_dict :=
    [("width", 25), ("surface", 30), ("smoothness", 5), ("maxspeed", 5),
     ("parking", 25), ("lit", 5), ("crossing", 5), ("crossing_markings", 5)]
  right_hand_traffic := true

/-- Modelled from the spec: `definitions.getDelimitedValues` — splits a
delimiter-joined string into its values. -/
def getDelimitedValues (st : String) (delim : String) : List String :=
  match delim.toList with
  | [c] => (splitOnChar c st.toList).map String.mk
  | _ => [st]

/-- Modelled from the spec: `definitions.addDelimitedValue` — appends a value
to an ordered delimiter-joined collection (modelled as a list). -/
def addDelimitedValue (l : List String) (v : String) : List String := l ++ [v]

/-- Modelled from the spec: `definitions.getAccess` — the access value for
the given transport mode: the mode's own tag, falling back to the generic
`access` tag. -/
def getAccess (seg : Seg) (mode : String) : Option String :=
  match getTag seg mode with
  | some (.s v) => some v
  | _ =>
    match getTag seg "access" with
    | some (.s v) => some v
    | _ => none

/-- Modelled from the spec: `definitions.deriveSeparation` — the separation
value on the side of the way facing the given traffic mode, from the
`separation`/`traffic_mode` tag families with "both" splitting into sides;
by default motor traffic faces the left and foot traffic the right side. -/
def deriveSeparation (seg : Seg) (mode : String) : Option String :=
  let sepL := (asStr (getTag seg "separation:left")).orElse
    (fun _ => (asStr (getTag seg "separation:both")).orElse
      (fun _ => asStr (getTag seg "separation")))
  let sepR := (asStr (getTag seg "separation:right")).orElse
    (fun _ => (asStr (getTag seg "separation:both")).orElse
      (fun _ => asStr (getTag seg "separation")))
  let tmL := (asStr (getTag seg "traffic_mode:left")).orElse
    (fun _ => asStr (getTag seg "traffic_mode:both"))
  let tmR := (asStr (getTag seg "traffic_mode:right")).orElse
    (fun _ => asStr (getTag seg "traffic_mode:both"))
  if tmL = some mode then sepL
  else if tmR = some mode then sepR
  else if mode = "motor_vehicle" then sepL
  else if mode = "foot" then sepR
  else none

/-- Modelled from the spec: `definitions.getWeakestSurfaceValue` — of several
listed surface values, the weakest one (lowest quality per the surface factor
table; unknown values rank weakest). -/
def getWeakestSurfaceValue (cfg : Config) (vals : List String) : Option String :=
  vals.foldl (fun acc v =>
    match acc with
    | none => some v
    | some a =>
      if lookupD cfg.surface_factor_dict v 0 < lookupD cfg.surface_factor_dict a 0
      then some v else acc) none

/-- Truthiness of an optional string (Python `if side:`). -/
def sTruthy : Option String → Bool
  | none => false
  | some t => !(t == "")

/-- Python `x in [list]` for an optional string. -/
def sMem (v : Option String) (l : List String) : Bool :=
  match v with
  | some t => l.contains t
  | none => false

/-- Python's `round(x, 1)` on a rational. -/
def roundQ1 (x : ℚ) : ℚ := (roundHEQ (10 * x) : ℚ) / 10

def onewayValueList : List String :=
  ["yes", "no", "-1", "alternating", "reversible"]

/-- `determine_cycleway_oneway` (cycling_quality_index.py:479). -/
def determineCyclewayOneway (cfg : Config)
    (oneway cycleway_oneway oneway_bicycle : Option TagVal)
    (way_type : String) (side : Option String) : String :=
  if valMem oneway onewayValueList then (asStr oneway).getD "no"
  else if valMem cycleway_oneway onewayValueList then (asStr cycleway_oneway).getD "no"
  else if ["cycle track", "shared path", "shared footway"].contains way_type
      && sTruthy side then cfg.default_oneway_cycle_track
  else if strContains way_type "cycle lane" then cfg.default_oneway_cycle_lane
  else if valMem oneway_bicycle onewayValueList then (asStr oneway_bicycle).getD "no"
  else "no"

/-- `determine_shared_road_oneway` (cycling_quality_index.py:496). -/
def determineSharedRoadOneway (oneway oneway_bicycle : Option TagVal) : String :=
  if !(tTruthy oneway_bicycle) || oneway == oneway_bicycle then
    if valMem oneway onewayValueList then (asStr oneway).getD "no" else "no"
  else if valIs oneway_bicycle "no" then
    if valMem oneway onewayValueList then (asStr oneway).getD "no" ++ "_motor_vehicles"
    else "no"
  else "yes"

/-- `derive_oneway_status` (cycling_quality_index.py:507). -/
def deriveOnewayStatus (cfg : Config) (seg : Seg) : String :=
  let oneway := getTag seg "oneway"
  let oneway_bicycle := getTag seg "oneway:bicycle"
  let cycleway_oneway := getTag seg "cycleway:oneway"
  let proc : Option String :=
    match seg.wayType with
    | some w =>
      if ["cycle path", "cycle track", "shared path", "segregated path",
          "shared footway", "crossing", "link", "cycle lane (advisory)",
          "cycle lane (exclusive)", "cycle lane (protected)",
          "cycle lane (central)"].contains w then
        some (determineCyclewayOneway cfg oneway cycleway_oneway oneway_bicycle w seg.side)
      else if w == "shared bus lane" then some "yes"
      else if ["shared road", "shared traffic lane", "bicycle road",
               "track or service"].contains w then
        some (determineSharedRoadOneway oneway oneway_bicycle)
      else none
    | none => none
  match proc with
  | some t => if t == "" then "unknown" else t
  | none => "unknown"

/-- `get_precalculated_feature_width` (cycling_quality_index.py:569);
`0` plays the role of the implicit `None` result. -/
def getPrecalculatedFeatureWidth (seg : Seg) : ℚ :=
  let w1 := getNumber (getTag seg "cycleway:width")
  if w1 ≠ 0 then w1 else getNumber (getTag seg "width")

/-- `get_default_width_for_way_type` (cycling_quality_index.py:580). -/
def getDefaultWidthForWayType (cfg : Config) (seg : Seg) : Option ℚ :=
  match seg.wayType with
  | some w =>
    if ["cycle path", "shared path", "cycle lane (protected)"].contains w then
      lookup? cfg.default_highway_width_dict "path"
    else if w == "shared footway" then
      lookup? cfg.default_highway_width_dict "footway"
    else lookup? cfg.default_highway_width_dict "cycleway"
  | none => lookup? cfg.default_highway_width_dict "cycleway"

/-- `split_both_values_to_left_right` (cycling_quality_index.py:593)
on attribute values. -/
def splitBothT (bv lv rv : Option TagVal) : Option TagVal × Option TagVal :=
  if tTruthy bv then
    ((if tTruthy lv then lv else bv), (if tTruthy rv then rv else bv))
  else (lv, rv)

/-- `split_both_values_to_left_right` on parsed numbers (0 = absent). -/
def splitBothQ (bv lv rv : ℚ) : ℚ × ℚ :=
  if bv ≠ 0 then ((if lv ≠ 0 then lv else bv), (if rv ≠ 0 then rv else bv))
  else (lv, rv)

/-- `calculate_parking_width` (cycling_quality_index.py:600). -/
def calculateParkingWidth (cfg : Config) (parking_side : Option TagVal)
    (parking_width : ℚ) (parking_orientation : Option TagVal) : ℚ :=
  let pw :=
    if valMem parking_side ["lane", "half_on_kerb"] && parking_width == 0 then
      if valIs parking_orientation "diagonal" then cfg.default_width_parking_diagonal
      else if valIs parking_orientation "perpendicular" then
        cfg.default_width_parking_perpendicular
      else cfg.default_width_parking_parallel
    else parking_width
  if valIs parking_side "half_on_kerb" then pw / 2 else pw

/-- `get_width_footway` (cycling_quality_index.py:613); `0` models `NULL`. -/
def getWidthFootway (seg : Seg) : ℚ :=
  let width := getNumber (getTag seg "width")
  let fw := getNumber (getTag seg "footway:width")
  if width == 0 then 0
  else if fw ≠ 0 then width - fw
  else width / 2

/-- `get_parking_status` (cycling_quality_index.py:751). -/
def getParkingStatus (seg : Seg) : Option TagVal × Option TagVal :=
  splitBothT (getTag seg "parking:both") (getTag seg "parking:left")
    (getTag seg "parking:right")

/-- `get_parking_width` (cycling_quality_index.py:761). -/
def getParkingWidth (cfg : Config) (seg : Seg) : ℚ × ℚ :=
  let pl0 := getTag seg "parking:left"
  let plo0 := getTag seg "parking:left:orientation"
  let plw0 := getNumber (getTag seg "parking:left:width")
  let pr0 := getTag seg "parking:right"
  let pro0 := getTag seg "parking:right:orientation"
  let prw0 := getNumber (getTag seg "parking:right:width")
  let pb := getTag seg "parking:both"
  let pbo := getTag seg "parking:both:orientation"
  let pbw := getNumber (getTag seg "parking:both:width")
  let lr := splitBothT pb pl0 pr0
  let lro := splitBothT pbo plo0 pro0
  let lrw := splitBothQ pbw plw0 prw0
  let prw := calculateParkingWidth cfg lr.2 lrw.2 lro.2
  let plw := calculateParkingWidth cfg lr.1 lrw.1 lro.1
  (plw, prw)

/-- The dictionary built by `get_cycleway_attributes`
(cycling_quality_index.py:787). -/
structure CycAttrs where
  cycleway : Option TagVal
  cycleway_left : Option TagVal
  cycleway_right : Option TagVal
  cycleway_both : Option TagVal
  cycleway_width : Option TagVal
  cycleway_left_width : Option TagVal
  cycleway_right_width : Option TagVal
  cycleway_both_width : Option TagVal
  deriving DecidableEq

def getCyclewayAttributes (seg : Seg) : CycAttrs where
  cycleway := getTag seg "cycleway"
  cycleway_left := getTag seg "cycleway:left"
  cycleway_right := getTag seg "cycleway:right"
  cycleway_both := getTag seg "cycleway:both"
  cycleway_width := getTag seg "cycleway:width"
  cycleway_left_width := getTag seg "cycleway:left:width"
  cycleway_right_width := getTag seg "cycleway:right:width"
  cycleway_both_width := getTag seg "cycleway:both:width"

/-- The tag key scheme of `get_buffer_attributes`
(cycling_quality_index.py:800): `cycleway[:side]:buffer[:type]`. -/
def bufferKey (side btype : String) : String :=
  "cycleway" ++ (if side == "" then "" else ":" ++ side) ++ ":buffer"
    ++ (if btype == "" then "" else ":" ++ btype)

def bufferAttr (seg : Seg) (side btype : String) : Option TagVal :=
  getTag seg (bufferKey side btype)

/-- `process_cycleway_sides` (cycling_quality_index.py:813). -/
def processCyclewaySides (a : CycAttrs) (oneway : Option String) : CycAttrs :=
  let a1 :=
    if tTruthy a.cycleway then
      let a2 := if !(tTruthy a.cycleway_right) then
        { a with cycleway_right := a.cycleway } else a
      if !(tTruthy a2.cycleway_left) && (!(sTruthy oneway) || oneway == some "no")
      then { a2 with cycleway_left := a2.cycleway } else a2
    else a
  if tTruthy a1.cycleway_both then
    let a2 := if !(tTruthy a1.cycleway_right) then
      { a1 with cycleway_right := a1.cycleway_both } else a1
    if !(tTruthy a2.cycleway_left) then
      { a2 with cycleway_left := a2.cycleway_both } else a2
  else a1

/-- `process_cycleway_widths` (cycling_quality_index.py:827). -/
def processCyclewayWidths (a : CycAttrs) (oneway : Option String) : CycAttrs :=
  if valIs a.cycleway_right "lane" || valIs a.cycleway_left "lane" then
    let a1 :=
      if tTruthy a.cycleway_width then
        let a2 := if !(tTruthy a.cycleway_right_width) then
          { a with cycleway_right_width := a.cycleway_width } else a
        if !(tTruthy a2.cycleway_left_width)
            && (!(sTruthy oneway) || oneway == some "no") then
          { a2 with cycleway_left_width := a2.cycleway_width } else a2
      else a
    if tTruthy a1.cycleway_both_width then
      let a2 := if !(tTruthy a1.cycleway_right_width) then
        { a1 with cycleway_right_width := a1.cycleway_both_width } else a1
      if !(tTruthy a2.cycleway_left_width) then
        { a2 with cycleway_left_width := a2.cycleway_both_width } else a2
    else a1
  else a

/-- `process_buffer` (cycling_quality_index.py:842): the first truthy value
along the ordered fallback chains.  When no value is truthy the source is
left with the last (falsy) chain value, which behaves exactly like `NULL`
downstream (it is only parsed by `getNumber`); this is represented as
`none`. -/
def processBuffer (seg : Seg) (side : String) : Option TagVal × Option TagVal :=
  let keysL := [(side, "left"), (side, "both"), (side, ""),
    ("both", "left"), ("both", "both"), ("both", ""),
    ("", "left"), ("", "both"), ("", "")]
  let keysR := [(side, "right"), (side, "both"), (side, ""),
    ("both", "right"), ("both", "both"), ("both", ""),
    ("", "right"), ("", "both"), ("", "")]
  let pick := fun (ks : List (String × String)) =>
    match (ks.map (fun p => bufferAttr seg p.1 p.2)).find? tTruthy with
    | some v => v
    | none => none
  (pick keysL, pick keysR)

/-- `make_cycleway_buffers` (cycling_quality_index.py:866).  Note the
source hardcodes `oneway = False` before splitting the plain `cycleway`
tags into sides. -/
def makeCyclewayBuffers (cfg : Config) (seg : Seg) : CycAttrs :=
  let a0 := getCyclewayAttributes seg
  let oneway : Option String := none
  let a1 := processCyclewaySides a0 oneway
  let a2 := processCyclewayWidths a1 oneway
  let a3 := if valIs a2.cycleway_right "lane" && !(tTruthy a2.cycleway_right_width)
    then { a2 with cycleway_right_width := some (.n cfg.default_width_cycle_lane) }
    else a2
  let a4 := if valIs a3.cycleway_left "lane" && !(tTruthy a3.cycleway_left_width)
    then { a3 with cycleway_left_width := some (.n cfg.default_width_cycle_lane) }
    else a3
  let a5 := { a4 with cycleway_right_width :=
    (if tTruthy a4.cycleway_right_width then a4.cycleway_right_width else some (.n 0)) }
  { a5 with cycleway_left_width :=
    (if tTruthy a5.cycleway_left_width then a5.cycleway_left_width else some (.n 0)) }

/-- `assure_default_width` (cycling_quality_index.py:890). -/
def assureDefaultWidth (cfg : Config) (seg : Seg) (proc_oneway : String) : ℚ :=
  let width := getNumber (getTag seg "width")
  if width ≠ 0 then width
  else
    let w := match asStr (getTag seg "highway") with
      | some h => lookupD cfg.default_highway_width_dict h cfg.default_highway_width_fallback
      | none => cfg.default_highway_width_fallback
    if strContains proc_oneway "yes" then roundQ1 (w / (8/5)) else w

def vContainsBar (v : Option TagVal) : Bool :=
  match asStr v with
  | some t => strContains t "|"
  | none => false

/-- The slice `s[s.rfind('|') + 1:]`: the part after the last `|`. -/
def lastBarPart (v : Option TagVal) : Option TagVal :=
  (asStr v).map (fun t => .s (String.mk ((splitOnChar '|' t.toList).getLastD [])))

/-- `calc_feature_width` (cycling_quality_index.py:626).  The width is an
`Option ℚ` (`none` = `NULL`); the outer `Option` is `none` exactly when the
source would raise a `TypeError` by multiplying a missing default width
(`None * 1.6`). -/
def calcFeatureWidth (cfg : Config) (seg : Seg) (proc_oneway : String) :
    Option (Option ℚ × List String) :=
  match seg.wayType with
  | none => some (none, [])
  | some w =>
    if ["cycle path", "cycle track", "shared path", "shared footway",
        "crossing", "link", "cycle lane (advisory)", "cycle lane (exclusive)",
        "cycle lane (protected)", "cycle lane (central)"].contains w then
      let width := getPrecalculatedFeatureWidth seg
      if width ≠ 0 then some (some width, [])
      else
        match getDefaultWidthForWayType cfg seg with
        | some dw =>
          some (some (if proc_oneway == "no" then dw * (8/5) else dw), ["width"])
        | none =>
          if proc_oneway == "no" then none else some (none, ["width"])
    else if w == "segregated path" then
      let hw := getTag seg "highway"
      if valIs hw "path" && getNumber (getTag seg "cycleway:width") ≠ 0 then
        some (some (getNumber (getTag seg "cycleway:width")), [])
      else
        let pm : ℚ × List String :=
          if valIs hw "path" then (getWidthFootway seg, ["width"])
          else (getNumber (getTag seg "width"), [])
        if pm.1 ≠ 0 then some (some pm.1, pm.2)
        else
          match lookup? cfg.default_highway_width_dict "path" with
          | some dw =>
            some (some (if proc_oneway == "no" then dw * (8/5) else dw),
              pm.2 ++ ["width"])
          | none =>
            if proc_oneway == "no" then none else some (none, pm.2 ++ ["width"])
    else if ["shared road", "shared traffic lane", "shared bus lane",
             "bicycle road", "track or service"].contains w then
      let pm1 : ℚ × List String :=
        if ["shared traffic lane", "shared bus lane"].contains w then
          let wl := getTag seg "width:lanes"
          let wlf := getTag seg "width:lanes:forward"
          let wlb := getTag seg "width:lanes:backward"
          if (strContains proc_oneway "yes" || !(w == "shared bus lane"))
              && tTruthy wl && vContainsBar wl then
            (getNumber (lastBarPart wl), [])
          else if (w == "shared bus lane" && !(strContains proc_oneway "yes"))
              && seg.side == some "right" && tTruthy wlf && vContainsBar wlf then
            (getNumber (lastBarPart wlf), [])
          else if (w == "shared bus lane" && !(strContains proc_oneway "yes"))
              && seg.side == some "left" && tTruthy wlb && vContainsBar wlb then
            (getNumber (lastBarPart wlb), [])
          else if w == "shared bus lane" then (cfg.default_width_bus_lane, [])
          else (cfg.default_width_traffic_lane, ["width:lanes"])
        else (0, [])
      if pm1.1 ≠ 0 then some (some pm1.1, pm1.2)
      else
        let we := getNumber (getTag seg "width:effective")
        if we ≠ 0 then some (some we, pm1.2)
        else
          let width0 := getNumber (getTag seg "width")
          let pw2 : ℚ :=
            if width0 == 0 then
              let lanes := getNumber (getTag seg "lanes")
              if lanes ≠ 0 then lanes * cfg.default_width_traffic_lane else 0
            else 0
          if pw2 ≠ 0 then some (some pw2, pm1.2)
          else
            let parking := getParkingStatus seg
            let pwidths := getParkingWidth cfg seg
            let ca := makeCyclewayBuffers cfg seg
            let wm : ℚ × List String :=
              if width0 ≠ 0 then (width0, pm1.2)
              else (assureDefaultWidth cfg seg proc_oneway, pm1.2 ++ ["width"])
            let bufR := if valIs ca.cycleway_right "lane" then processBuffer seg "right"
              else (none, none)
            let bufL := if valIs ca.cycleway_left "lane" then processBuffer seg "left"
              else (none, none)
            let buffer := getNumber bufR.1 + getNumber bufR.2
              + getNumber bufL.1 + getNumber bufL.2
            let pw3 := wm.1 - getNumber ca.cycleway_right_width
              - getNumber ca.cycleway_left_width - buffer
            let pw4 :=
              if tTruthy parking.2 || tTruthy parking.1 then
                pw3 - pwidths.2 - pwidths.1
              else if w == "shared road" then
                if !(strContains proc_oneway "yes") then min pw3 (11/2)
                else min pw3 4
              else pw3
            let pw5 :=
              if pw4 < cfg.default_width_traffic_lane ∧ wm.2.contains "width" = true
              then cfg.default_width_traffic_lane else pw4
            some ((if pw5 == 0 then none else some pw5), wm.2)
    else some (none, [])

/-- `get_default_surface` (cycling_quality_index.py:900). -/
def getDefaultSurface (cfg : Config) (seg : Seg) (way_type : String) : String :=
  if ["cycle lane (advisory)", "cycle lane (exclusive)", "cycle lane (protected)",
      "cycle lane (central)"].contains way_type then
    cfg.default_cycleway_surface_lanes
  else if way_type == "cycle track" then cfg.default_cycleway_surface_tracks
  else if way_type == "track or service" then
    let g3 := lookupD cfg.default_track_surface_dict "grade3" ""
    match asStr (getTag seg "tracktype") with
    | some t => lookupD cfg.default_track_surface_dict t g3
    | none => g3
  else
    let pd := lookupD cfg.default_highway_surface_dict "path" ""
    match asStr (getTag seg "highway") with
    | some h => lookupD cfg.default_highway_surface_dict h pd
    | none => pd

/-- `derive_surface` (cycling_quality_index.py:913).  A numeric tag value
never contains a `";"`; the final dictionary check nulls it anyway. -/
def deriveSurface (cfg : Config) (seg : Seg) : Option TagVal × List String :=
  let surface_bicycle := getTag seg "surface:bicycle"
  let proc0 : Option TagVal :=
    if tTruthy surface_bicycle then
      if isKey cfg.surface_factor_dict surface_bicycle then surface_bicycle
      else
        match asStr surface_bicycle with
        | some t =>
          if strContains t ";" then
            (getWeakestSurfaceValue cfg (getDelimitedValues t ";")).map .s
          else none
        | none => none
    else none
  if tTruthy proc0 then (proc0, [])
  else
    let pm : Option TagVal × List String :=
      if seg.wayType == some "segregated path" then
        let cs := getTag seg "cycleway:surface"
        if tTruthy cs then (cs, [])
        else
          let surface := getTag seg "surface"
          if tTruthy surface then (surface, ["surface"])
          else
            let pd := lookupD cfg.default_highway_surface_dict "path" ""
            ((some (.s (match asStr (getTag seg "highway") with
              | some h => lookupD cfg.default_highway_surface_dict h pd
              | none => pd))), ["surface"])
      else
        let surface := getTag seg "surface"
        if tTruthy surface then (surface, [])
        else (some (.s (getDefaultSurface cfg seg (seg.wayType.getD ""))), ["surface"])
    let pm2 : Option TagVal :=
      match pm.1 with
      | some (.s t) =>
        if strContains t ";" then
          (getWeakestSurfaceValue cfg (getDelimitedValues t ";")).map .s
        else some (.s t)
      | v => v
    ((if isKey cfg.surface_factor_dict pm2 then pm2 else none), pm.2)

/-- `derive_smoothness` (cycling_quality_index.py:953).  Note the source
assigns the looked-up smoothness *factor* (a number) to `proc_smoothness`
when `smoothness:bicycle` is a recognized key, not the tag value itself. -/
def deriveSmoothness (cfg : Config) (seg : Seg) : Option TagVal × List String :=
  let proc0 : Option TagVal :=
    match getTag seg "smoothness:bicycle" with
    | some (.s t) => (lookup? cfg.smoothness_factor_dict t).map .n
    | _ => none
  let pm : Option TagVal × List String :=
    if !(tTruthy proc0) then
      let pv :=
        if seg.wayType == some "segregated path" then
          (if tTruthy (getTag seg "cycleway:smoothness") then
            getTag seg "cycleway:smoothness" else getTag seg "smoothness")
        else getTag seg "smoothness"
      if !(tTruthy pv) then (pv, ["smoothness"]) else (pv, [])
    else (proc0, [])
  ((if isKey cfg.smoothness_factor_dict pm.1 then pm.1 else none), pm.2)

/-- A single token step of the traffic-sign scan in the main loop
(cycling_quality_index.py:1331): the not-mandatory list is checked first,
the mandatory list second, and each match overwrites the current value. -/
def scanStep (mand notMand : List String) (st : Option String) (tok : String) :
    Option String :=
  let st1 := if notMand.any (fun m => strContains tok m) then some "no" else st
  if mand.any (fun m => strContains tok m) then some "yes" else st1

/-- The traffic-sign scan of the main loop (cycling_quality_index.py:1329). -/
def scanTrafficSigns (mand notMand : List String) (traffic_sign : String) :
    Option String :=
  (getDelimitedValues (commasToSemis traffic_sign) ";").foldl
    (scanStep mand notMand) none

/-- The claim's reading of the scan, for comparison: the *first* matching
token decides and later matches are ignored. -/
def specFirstAssignScan (mand notMand : List String) (traffic_sign : String) :
    Option String :=
  (getDelimitedValues (commasToSemis traffic_sign) ";").foldl
    (fun st tok =>
      match st with
      | some v => some v
      | none =>
        if mand.any (fun m => strContains tok m) then some "yes"
        else if notMand.any (fun m => strContains tok m) then some "no"
        else none) none

/-- The last matching token decides (`yes` when it matches the mandatory
list, which is checked after the not-mandatory list). -/
def lastMatchScan (mand notMand : List String) (traffic_sign : String) :
    Option String :=
  ((getDelimitedValues (commasToSemis traffic_sign) ";").reverse.find?
    (fun tok => mand.any (fun m => strContains tok m)
      || notMand.any (fun m => strContains tok m))).map
    (fun tok => if mand.any (fun m => strContains tok m) then "yes" else "no")

/-- The mandatory-use derivation of the main loop
(cycling_quality_index.py:1317). -/
def deriveMandatory (cfg : Config) (seg : Seg) (proc_oneway : String) :
    Option String :=
  let cycleway := getTag seg "cycleway"
  let cycleway_both := getTag seg "cycleway:both"
  let cycleway_right := getTag seg "cycleway:right"
  let bicycle := getTag seg "bicycle"
  let pm0 : Option String :=
    if sMem seg.wayType ["bicycle road", "shared road", "shared traffic lane",
        "track or service"] then
      let p1 :=
        if valMem cycleway ["lane", "share_busway"]
            || valMem cycleway_both ["lane", "share_busway"]
            || (strContains proc_oneway "yes"
                && valMem cycleway_right ["lane", "share_busway"]) then
          some "use_sidepath"
        else if valIs cycleway "track" || valIs cycleway_both "track"
            || (strContains proc_oneway "yes" && valIs cycleway_right "track") then
          some "optional_sidepath"
        else none
      if valMem bicycle ["use_sidepath", "optional_sidepath"] then asStr bicycle
      else p1
    else
      if seg.procSidepath == some "yes" then
        match getTag seg "traffic_sign" with
        | some (.s ts) =>
          if !(ts == "") then
            scanTrafficSigns cfg.mandatory_traffic_sign_list
              cfg.not_mandatory_traffic_sign_list ts
          else none
        | _ => none
      else none
  if sMem (asStr (getTag seg "highway")) cfg.cycling_highway_prohibition_list
      || valIs bicycle "no" then some "prohibited"
  else pm0

/-- The `filter_way_type` classification (cycling_quality_index.py:1355). -/
def filterWayTypeOf (w : Option String) : Option String :=
  match w with
  | some wt =>
    if ["cycle path", "cycle track", "shared path", "segregated path",
        "shared footway", "cycle lane (protected)"].contains wt then
      some "separated"
    else if ["cycle lane (advisory)", "cycle lane (exclusive)",
        "cycle lane (central)", "link", "crossing"].contains wt then
      some "cycle lanes"
    else if wt == "bicycle road" then some "bicycle road"
    else if ["shared road", "shared traffic lane", "shared bus lane",
        "track or service"].contains wt then some "shared traffic"
    else none
  | none => none

/-- `determine_way_type` (cycling_quality_index.py:377).  The shared-footway
branch without bicycle access deletes the feature in the source but then
falls through the remaining cascade; since none of the later highway checks
can match a footway-class highway, the cascade below is the same control
flow. -/
def determineWayType (seg : Seg) : Option String :=
  let highway := getTag seg "highway"
  let segregated := getTag seg "segregated"
  let bicycle := getTag seg "bicycle"
  let foot := getTag seg "foot"
  let is_sidepath := getTag seg "is_sidepath"
  let sepMvRaw := deriveSeparation seg "motor_vehicle"
  let sepMvSet := !(sepMvRaw == none || sepMvRaw == some "no" || sepMvRaw == some "none")
  let sepMvKerb := strContains (sepMvRaw.getD "") "kerb"
    || strContains (sepMvRaw.getD "") "tree_row"
  if valIs (getTag seg "bicycle_road") "yes" && !(sTruthy seg.side) then
    some "bicycle road"
  else if ["footway", "cycleway", "path", "bridleway"].any
      (fun a => valIs (getTag seg a) "link") then some "link"
  else if ["footway", "cycleway", "path", "bridleway"].any
      (fun a => valIs (getTag seg a) "crossing") then some "crossing"
  else if valMem highway ["footway", "pedestrian", "bridleway", "steps"]
      && valMem bicycle ["yes", "designated", "permissive"] then
    some "shared footway"
  else if valIs highway "path" then
    if valIs foot "designated" && !(valIs bicycle "designated") then
      some "shared footway"
    else if valIs segregated "yes" then some "segregated path"
    else some "shared path"
  else if valIs highway "cycleway" then
    if valMem foot ["yes", "designated", "permissive"] then some "shared path"
    else if deriveSeparation seg "foot" == some "no" then some "segregated path"
    else if !(sMem (asStr is_sidepath) ["yes", "no"]) then
      (if seg.procSidepath == some "yes" then some "cycle track"
       else some "cycle path")
    else if valIs is_sidepath "yes" then
      if sepMvSet then
        (if sepMvKerb then some "cycle track" else some "cycle lane (protected)")
      else some "cycle track"
    else some "cycle path"
  else if valMem highway ["service", "track"] then some "track or service"
  else if !(sTruthy seg.side) then
    let lane_markings := getTag seg "lane_markings"
    if valIs lane_markings "yes" || (!(valIs lane_markings "yes")
        && valMem highway ["motorway", "trunk", "primary", "secondary"]) then
      some "shared traffic lane"
    else some "shared road"
  else if seg.typeAttr == some "sidewalk" then some "shared footway"
  else if ["cycleway", "cycleway:both", "cycleway:left", "cycleway:right"].any
      (fun a => valIs (getTag seg a) "lane") then
    let central :=
      match asStr (getTag seg "cycleway:lanes") with
      | some cl => !(cl == "") && strContains cl "no|lane|no"
      | none => false
    if central then some "cycle lane (central)"
    else if sepMvSet then some "cycle lane (protected)"
    else if ["cycleway:lane", "cycleway:both:lane", "cycleway:left:lane",
        "cycleway:right:lane"].any (fun a => valIs (getTag seg a) "exclusive") then
      some "cycle lane (exclusive)"
    else some "cycle lane (advisory)"
  else if ["cycleway", "cycleway:both", "cycleway:left", "cycleway:right"].any
      (fun a => valIs (getTag seg a) "track") then
    if ["cycleway:foot", "cycleway:both:foot", "cycleway:left:foot",
        "cycleway:right:foot"].any
        (fun a => valMem (getTag seg a) ["yes", "designated", "permissive"]) then
      some "shared path"
    else if ["cycleway:segregated", "cycleway:both:segregated",
        "cycleway:left:segregated", "cycleway:right:segregated"].any
        (fun a => valIs (getTag seg a) "yes") then some "segregated path"
    else if ["cycleway:segregated", "cycleway:both:segregated",
        "cycleway:left:segregated", "cycleway:right:segregated"].any
        (fun a => valIs (getTag seg a) "no") then some "shared path"
    else if deriveSeparation seg "foot" == some "no" then some "segregated path"
    else if sepMvSet then
      (if sepMvKerb then some "cycle track" else some "cycle lane (protected)")
    else some "cycle track"
  else if ["cycleway", "cycleway:both", "cycleway:left", "cycleway:right"].any
      (fun a => valIs (getTag seg a) "share_busway") then some "shared bus lane"
  else if ["sidewalk:bicycle", "sidewalk:both:bicycle", "sidewalk:left:bicycle",
      "sidewalk:right:bicycle"].any (fun a => valIs (getTag seg a) "yes") then
    some "shared footway"
  else
    let lane_markings := getTag seg "lane_markings"
    if valIs lane_markings "yes" || (!(valIs lane_markings "yes")
        && valMem highway ["primary", "secondary"]) then
      some "shared traffic lane"
    else some "shared road"

/-- The traffic-mode / separation / buffer values derived per side
(cycling_quality_index.py:1187). -/
structure TCtx where
  tml : Option TagVal
  tmr : Option TagVal
  sepL : Option TagVal
  sepR : Option TagVal
  bufL : Option ℚ
  bufR : Option ℚ
  deriving DecidableEq

def trafficCtxOf (cfg : Config) (seg : Seg) : TCtx :=
  let way_type := seg.wayType
  let is_sidepath := seg.procSidepath
  let side := seg.side
  if way_type == some "cycle lane (central)" then
    { tml := some (.s "motor_vehicle"), tmr := some (.s "motor_vehicle"),
      sepL := none, sepR := none, bufL := none, bufR := none }
  else
    let tml0 := getTag seg "traffic_mode:left"
    let tmr0 := getTag seg "traffic_mode:right"
    let tmb := getTag seg "traffic_mode:both"
    let pr0 := getTag seg "parking:right"
    let pl0 := getTag seg "parking:left"
    let pb := getTag seg "parking:both"
    let pl := if tTruthy pb && !(tTruthy pl0) then pb else pl0
    let pr := if tTruthy pb && !(tTruthy pr0) then pb else pr0
    let tml1 := if tTruthy tmb && !(tTruthy tml0) then tmb else tml0
    let tmr1 := if tTruthy tmb && !(tTruthy tmr0) then tmb else tmr0
    let parkingAdj := (side == some "right" && tTruthy pr && !(valIs pr "no"))
      || (side == some "left" && tTruthy pl && !(valIs pl "no"))
    let tml2 :=
      if !(tTruthy tml1) then
        if way_type == some "cycle path" then some (TagVal.s "no")
        else if sMem way_type ["cycle track", "shared path", "segregated path",
            "shared footway"] && is_sidepath == some "yes" then
          (if parkingAdj && !(valIs tmr1 "parking") then some (TagVal.s "parking")
           else some (TagVal.s "motor_vehicle"))
        else if strContains (way_type.getD "") "cycle lane"
            || sMem way_type ["shared road", "shared traffic lane",
                "shared bus lane", "crossing"] then
          some (TagVal.s "motor_vehicle")
        else tml1
      else tml1
    let tmr2 :=
      if !(tTruthy tmr1) then
        if way_type == some "cycle path" then some (TagVal.s "no")
        else if way_type == some "crossing" then some (TagVal.s "motor_vehicle")
        else if strContains (way_type.getD "") "cycle lane" then
          (if parkingAdj && !(valIs tml2 "parking") then some (TagVal.s "parking")
           else some (TagVal.s "foot"))
        else if sMem way_type ["cycle track", "shared path", "segregated path",
            "shared footway"] && is_sidepath == some "yes" then
          some (TagVal.s "foot")
        else tmr1
      else tmr1
    let sl0 := getTag seg "separation:left"
    let sr0 := getTag seg "separation:right"
    let sb := getTag seg "separation:both"
    let sep := getTag seg "separation"
    let sl1 := if tTruthy sb && !(tTruthy sl0) then sb else sl0
    let sr1 := if tTruthy sb && !(tTruthy sr0) then sb else sr0
    let sl2 :=
      if tTruthy sep then
        if cfg.right_hand_traffic then
          if valMem tml2 ["motor_vehicle", "psv", "parking"] then
            (if !(tTruthy sl1) then sep else sl1)
          else sl1
        else
          if valMem tmr2 ["motor_vehicle", "psv", "parking"] then sl1
          else (if valIs tml2 "motor_vehicle" && !(tTruthy sl1) then sep else sl1)
      else sl1
    let sr2 :=
      if tTruthy sep then
        if cfg.right_hand_traffic then
          if valMem tml2 ["motor_vehicle", "psv", "parking"] then sr1
          else (if valIs tmr2 "motor_vehicle" && !(tTruthy sr1) then sep else sr1)
        else
          if valMem tmr2 ["motor_vehicle", "psv", "parking"] then
            (if !(tTruthy sr1) then sep else sr1)
          else sr1
      else sr1
    let sl3 := if !(tTruthy sl2) then some (TagVal.s "no") else sl2
    let sr3 := if !(tTruthy sr2) then some (TagVal.s "no") else sr2
    let bl0 := getNumber (getTag seg "buffer:left")
    let br0 := getNumber (getTag seg "buffer:right")
    let bb := getNumber (getTag seg "buffer:both")
    let bf := getNumber (getTag seg "buffer")
    let bl1 := if bb ≠ 0 ∧ bl0 = 0 then bb else bl0
    let br1 := if bb ≠ 0 ∧ br0 = 0 then bb else br0
    let bl2 :=
      if bf ≠ 0 then
        if cfg.right_hand_traffic then
          if valMem tml2 ["motor_vehicle", "psv", "parking"] then
            (if bl1 = 0 then bf else bl1)
          else bl1
        else
          if valMem tmr2 ["motor_vehicle", "psv", "parking"] then bl1
          else (if valIs tml2 "motor_vehicle" ∧ bl1 = 0 then bf else bl1)
      else bl1
    let br2 :=
      if bf ≠ 0 then
        if cfg.right_hand_traffic then
          if valMem tml2 ["motor_vehicle", "psv", "parking"] then br1
          else (if valIs tmr2 "motor_vehicle" ∧ br1 = 0 then bf else br1)
        else
          if valMem tmr2 ["motor_vehicle", "psv", "parking"] then
            (if br1 = 0 then bf else br1)
          else br1
      else br1
    { tml := tml2, tmr := tmr2, sepL := sl3, sepR := sr3,
      bufL := some bl2, bufR := some br2 }

/-- The base-index assignment including the motor-vehicle-access override
(cycling_quality_index.py:1378); also yields the bonus tag it may add. -/
def baseIndexMain (cfg : Config) (seg : Seg) : Option ℤ × List String :=
  let b0 := match seg.wayType with
    | some w => lookup? cfg.base_index_dict w
    | none => none
  if sMem seg.wayType ["bicycle road", "shared road", "shared traffic lane",
      "track or service"] then
    match getAccess seg "motor_vehicle" with
    | some acc =>
      match lookup? cfg.motor_vehicle_access_index_dict acc with
      | some b => (some b, ["motor vehicle restricted"])
      | none => (b0, [])
    | none => (b0, [])
  else (b0, [])

/-- Python's `motor_vehicle_access in p.motor_vehicle_access_index_dict`. -/
def accessInDict (cfg : Config) (a : Option String) : Bool :=
  match a with
  | some t => isKeyStr cfg.motor_vehicle_access_index_dict t
  | none => false

/-- The shared/mixed way types of the width-factor branch
(cycling_quality_index.py:1396). -/
def sharedFiveTypes : List String :=
  ["bicycle road", "shared road", "shared traffic lane", "shared bus lane",
   "track or service"]

/-- The branch test of cycling_quality_index.py:1396: dedicated cycling
ways, or shared ways without motor vehicle access. -/
def widthDedicated (wayType mvAccess : Option String) : Bool :=
  !(sMem wayType sharedFiveTypes) || mvAccess == some "no"

/-- The width transformation `calc_width`
(cycling_quality_index.py:1393-1415); `0` models `NULL`. -/
def calcWidthOf (wayType mvAccess : Option String) (procWidth : Option ℚ)
    (procOneway : String) : ℚ :=
  match procWidth with
  | none => 0
  | some w0 =>
    if widthDedicated wayType mvAccess then
      (if w0 ≠ 0 ∧ !(strContains procOneway "yes") then w0 / (8/5) else w0)
    else
      if w0 ≠ 0 then
        if wayType == some "shared traffic lane" then
          max (w0 - 2 + ((9/2 - w0) / 3)) 0
        else if wayType == some "shared bus lane" then
          max (w0 - 3 + ((11/2 - w0) / 3)) 0
        else
          (if !(strContains procOneway "yes") then w0 / (8/5) else w0) - 2
      else w0

/-- The two logistic width curves (cycling_quality_index.py:1422-1426). -/
noncomputable def facWidthRaw (wayType : Option String) (cw2 : ℚ) : ℝ :=
  if cw2 ≤ 3 ∨ sMem wayType sharedFiveTypes = true then
    11/10 / (1 + 20 * Real.exp (-(21/10) * (cw2 : ℝ)))
  else 2 / (1 + (9/5) * Real.exp (-(6/25) * (cw2 : ℝ)))

/-- The curve with the restricted-access damping
(cycling_quality_index.py:1422-1430). -/
noncomputable def facWidthCurve (cfg : Config) (wayType mvAccess : Option String)
    (cw2 : ℚ) : ℝ :=
  if sMem wayType ["bicycle road", "shared road", "shared traffic lane",
        "track or service"] && accessInDict cfg mvAccess then
    facWidthRaw wayType cw2 + ((1 - facWidthRaw wayType cw2) / 2)
  else facWidthRaw wayType cw2

/-- The width-factor computation (cycling_quality_index.py:1393-1434):
width transformation, logistic curve, minimum factor and rounding to
three decimals. -/
noncomputable def facWidthOf (cfg : Config) (wayType : Option String)
    (mvAccess : Option String) (procWidth : Option ℚ) (procOneway : String) :
    Option ℚ :=
  let mf : ℚ := if widthDedicated wayType mvAccess then 0 else 1/4
  let cw : ℚ := calcWidthOf wayType mvAccess procWidth procOneway
  if cw ≠ 0 then
    some (roundQ3R (max (mf : ℝ)
      (facWidthCurve cfg wayType mvAccess (max (1/1000) cw))))
  else none

/-- The surface-factor assignment (cycling_quality_index.py:1446-1449).
The source has no else-branch: when neither the smoothness nor the surface
value matches a factor table, the Python local keeps its value from the
previous loop iteration (`prev`), and is unbound (`none` = `NameError`)
on the first such segment. -/
def facSurfaceStep (cfg : Config) (procSmoothness procSurface : Option TagVal)
    (prev : Option ℚ) : Option ℚ :=
  if tTruthy procSmoothness ∧ isKey cfg.smoothness_factor_dict procSmoothness then
    match procSmoothness with
    | some (.s t) => lookup? cfg.smoothness_factor_dict t
    | _ => prev
  else if tTruthy procSurface ∧ isKey cfg.surface_factor_dict procSurface then
    match procSurface with
    | some (.s t) => lookup? cfg.surface_factor_dict t
    | _ => prev
  else prev

/-- The highway factor (cycling_quality_index.py:1463-1466). -/
def facHighwayOf (cfg : Config) (seg : Seg) : ℚ :=
  match seg.procHighway with
  | some h => if h == "" then 1 else lookupD cfg.highway_factor_dict h 1
  | none => 1

/-- The maxspeed factor (cycling_quality_index.py:1464-1470): the factor of
the last table entry whose threshold the speed reaches. -/
def facMaxspeedOf (cfg : Config) (seg : Seg) : ℚ :=
  match seg.procMaxspeed with
  | some ms =>
    if ms ≠ 0 then
      cfg.maxspeed_factor_dict.foldl (fun acc p => if ms ≥ p.1 then p.2 else acc) 1
    else 1
  | none => 1

/-- The condition for the `maxspeed` missing marker
(cycling_quality_index.py:1471-1474). -/
def maxspeedMissing (seg : Seg) : Bool :=
  let msTruthy := match seg.procMaxspeed with
    | some ms => !(ms == 0)
    | none => false
  !msTruthy && !(seg.wayType == some "track or service")
    && !(seg.procSidepath == some "no")
    && !(sMem seg.procHighway ["pedestrian", "service", "track"])

/-- `fac_2` with its weight (cycling_quality_index.py:1566-1575). -/
def fac2Of (cfg : Config) (wayType : Option String) (isSidepath : Option String)
    (fh fm : ℚ) : ℚ × ℚ :=
  let w0 : ℚ := match wayType with
    | some wt => lookupD cfg.highway_factor_dict_weights wt 1
    | none => 1
  let w1 := if sMem wayType ["shared path", "segregated path", "shared footway"]
      ∧ !(isSidepath == some "yes") then 0 else w0
  let f0 := fh * fm
  let f1 := f0 + ((1 - f0) * (1 - w1))
  ((if f1 = 0 then 1 else f1), w1)

/-- `fac_4` up to (excluding) the `bicycle=permissive` malus
(cycling_quality_index.py:1591-1645): the factor, its bonus and malus
additions and its missing-marker additions. -/
def fac4Core (_cfg : Config) (seg : Seg) (tc : TCtx) :
    ℚ × List String × List String × List String :=
  let way_type := seg.wayType
  let wts := way_type.getD ""
  let is_sidepath := seg.procSidepath
  let cycleway := getTag seg "cycleway"
  let cycleway_both := getTag seg "cycleway:both"
  let cycleway_left := getTag seg "cycleway:left"
  let cycleway_right := getTag seg "cycleway:right"
  let s1 : ℚ × List String :=
    if sMem way_type ["shared road", "shared traffic lane"]
        ∧ (valIs cycleway "shared_lane" || valIs cycleway_both "shared_lane"
           || valIs cycleway_left "shared_lane"
           || valIs cycleway_right "shared_lane") = true then
      (1 + 1/10, ["shared lane markings"])
    else (1, [])
  let s2 : ℚ × List String :=
    if strContains wts "cycle lane"
        || sMem way_type ["crossing", "shared bus lane", "link", "bicycle road"]
        || (sMem way_type ["shared path", "segregated path"]
            && is_sidepath == some "yes") then
      let sc := getTag seg "surface:colour"
      if tTruthy sc ∧ !(valMem sc ["no", "none", "grey", "gray", "black"]) = true then
        (if way_type == some "crossing" then
          (s1.1 + 3/20, s1.2 ++ ["surface colour"])
         else (s1.1 + 1/20, s1.2 ++ ["surface colour"]))
      else s1
    else s1
  let s3 : ℚ × List String × List String :=
    if way_type == some "crossing" then
      let crossing := getTag seg "crossing"
      let cm := getTag seg "crossing:markings"
      let m1 : List String := if !(tTruthy crossing) then ["crossing"] else []
      let m2 := if !(tTruthy cm) then m1 ++ ["crossing_markings"] else m1
      if valMem crossing ["traffic_signals"] then
        (s2.1 + 1/5, s2.2 ++ ["signalled crossing"], m2)
      else if valMem crossing ["marked", "zebra"]
          || (tTruthy cm && !(valIs cm "no")) then
        (s2.1 + 1/10, s2.2 ++ ["marked crossing"], m2)
      else (s2.1, s2.2, m2)
    else (s2.1, s2.2, [])
  let lit := getTag seg "lit"
  let miss2 := if !(tTruthy lit) then s3.2.2 ++ ["lit"] else s3.2.2
  let s4 : ℚ × List String :=
    if valIs lit "no" then (s3.1 - 1/10, ["no street lighting"]) else (s3.1, [])
  let bl := tc.bufL.getD 0
  let br := tc.bufR.getD 0
  let dooring :=
    ((valIs tc.tml "parking" ∧ bl ≠ 0 ∧ bl < 1)
      ∨ (valIs tc.tmr "parking" ∧ br ≠ 0 ∧ br < 1))
    ∧ (strContains wts "cycle lane"
       ∨ (sMem way_type ["cycle track", "shared path", "segregated path"]
          ∧ is_sidepath == some "yes"))
  let s5 : ℚ × List String :=
    if dooring then
      let d1 : ℚ := if valIs tc.tml "parking" then |bl - 1| / 5 else 0
      let d2 : ℚ := if valIs tc.tmr "parking" then |br - 1| / 5 else d1
      let d3 : ℚ := if valIs tc.tml "parking" ∧ valIs tc.tmr "parking" then
          |((bl + br) / 2) - 1| / 5 else d2
      (s4.1 - d3, s4.2 ++ ["insufficient dooring buffer"])
    else s4
  (s5.1, s3.2.1, s5.2, miss2)

/-- `fac_4` (cycling_quality_index.py:1591-1650): the core above plus the
malus for `bicycle=permissive` (line 1648). -/
def fac4Of (cfg : Config) (seg : Seg) (tc : TCtx) :
    ℚ × List String × List String × List String :=
  let c := fac4Core cfg seg tc
  if valIs (getTag seg "bicycle") "permissive" then
    (c.1 - 1/5, c.2.1, c.2.2.1 ++ ["cycling not intended"], c.2.2.2)
  else c

/-- The level-of-traffic-stress decision tree
(cycling_quality_index.py:1672-1712). -/
def computeLts (cfg : Config) (seg : Seg) (procOneway : String)
    (procWidth : Option ℚ) : Option ℤ :=
  let wt := seg.wayType
  let ms := seg.procMaxspeed.getD 0
  let pw := procWidth.getD 0
  if sMem wt ["cycle path", "cycle track", "segregated path",
      "cycle lane (protected)"] then some 1
  else if sMem wt ["shared path", "shared footway"] then
    if !(["yes", "-1"].contains procOneway) ∧ pw ≠ 0 ∧ pw < 3 ∧ ms ≠ 0 ∧ ms > 30
    then some 3 else some 1
  else if sMem wt ["cycle lane (advisory)", "cycle lane (central)",
      "shared bus lane", "link", "crossing"] then
    if ms ≠ 0 ∧ ms ≤ 10 then some 1
    else if ms ≠ 0 ∧ ms ≤ 30 then some 2
    else if pw ≠ 0 ∧ pw ≥ 3/2 then some 3
    else some 4
  else if wt == some "cycle lane (exclusive)" then
    if ms ≠ 0 ∧ ms ≤ 10 then some 1
    else if ms ≠ 0 ∧ ms ≤ 50 ∧ pw ≠ 0 ∧ pw ≥ 37/20 then some 2
    else some 3
  else if sMem wt ["bicycle road", "shared road", "shared traffic lane"] then
    if wt == some "bicycle road"
        && accessInDict cfg (getAccess seg "motor_vehicle") then some 1
    else
      let prio := getTag seg "priority_road"
      if ms ≠ 0 ∧ ms ≤ 10 ∧ sMem seg.procHighway ["residential", "living_street"]
          ∧ (!(tTruthy prio) ∨ valIs prio "no") then some 1
      else if ms ≠ 0 ∧ ms ≤ 30
          ∧ sMem seg.procHighway ["tertiary", "tertiary_link", "unclassified",
              "road", "residential", "living_street"] then some 2
      else some 4
  else if wt == some "track or service" then
    if ms ≠ 0 ∧ ms ≤ 10 then some 1 else some 2
  else none

/-- `data_incompleteness` (cycling_quality_index.py:1719-1724). -/
def computeIncompleteness (cfg : Config) (missing : List String) : ℚ :=
  missing.foldl (fun acc v => acc + lookupD cfg.data_incompleteness_dict v 0) 0

/-- Truthiness of an optional number (`NULL` and `0` falsy). -/
def oqTruthy (x : Option ℚ) : Bool :=
  match x with
  | some v => !(v == 0)
  | none => false

/-- `fac_width > 1` with a `NULL` comparing as false. -/
def oqGtOne (x : Option ℚ) : Bool :=
  match x with
  | some v => decide (v > 1)
  | none => false

/-- `fac_width and fac_width <= 0.5`. -/
def oqNarrow (x : Option ℚ) : Bool :=
  match x with
  | some v => !(v == 0) && decide (v ≤ 1/2)
  | none => false

/-- `fac_1`: the weighted combination of the width and surface factors
(cycling_quality_index.py:1551-1561). -/
def fac1Of (fw : Option ℚ) (fs : ℚ) : ℚ :=
  if oqTruthy fw && !(fs == 0) then
    let v := fw.getD 0
    let wfw := max (1 - v) 0 + 1/2
    let wfs := max (1 - fs) 0 + 1/2
    (wfw * v + wfs * fs) / (wfw + wfs)
  else if oqTruthy fw then fw.getD 0
  else if fs ≠ 0 then fs
  else 1

/-- The composite index (cycling_quality_index.py:1654-1657):
`int(round(clamp(base * fac_1 * fac_2 * fac_3 * fac_4, 0, 100)))`. -/
def indexOf (b : ℤ) (f1 f2 f3 f4 : ℚ) : ℤ :=
  roundHEQ (max (min 100 ((b : ℚ) * f1 * f2 * f3 * f4)) 0)

/-- The per-segment output record: the processed attributes, factors,
index and data-quality values the loop body writes back to the feature
(the redundant `data_missing_*` flag columns are subsumed by the two
missing-marker lists). -/
structure SegOut where
  procOneway : String
  procWidth : Option ℚ
  procSurface : Option TagVal
  procSmoothness : Option TagVal
  resolverMissing : List String
  tctx : TCtx
  procMandatory : Option String
  filterUsable : ℤ
  filterWayType : Option String
  baseIndex : Option ℤ
  facWidth : Option ℚ
  facSurface : ℚ
  facHighway : ℚ
  facMaxspeed : ℚ
  fac1 : Option ℚ
  fac2 : Option ℚ
  fac3 : Option ℚ
  fac4 : Option ℚ
  index : Option ℤ
  index10 : Option ℤ
  stressLevel : Option ℤ
  dataMissing : List String
  dataBonus : List String
  dataMalus : List String
  dataIncompleteness : ℚ
  deriving DecidableEq

/-- The body of the per-feature loop (cycling_quality_index.py:1174-1724):
attribute resolution, factor scoring, index, stress level and data
completeness for one segment.  `prev` is the value of the Python local
`fac_surface` left over from the previous loop iteration (`none` =
unbound); the result is `none` when the source would raise — a `TypeError`
in `calc_feature_width` or the `NameError` on the unassigned `fac_surface`.
A `NULL` width factor is treated as falsy in the bonus comparison
`fac_width > 1`. -/
noncomputable def evalSegment (cfg : Config) (prev : Option ℚ) (seg : Seg) :
    Option SegOut :=
  let one_way := deriveOnewayStatus cfg seg
  match calcFeatureWidth cfg seg one_way with
  | none => none
  | some wres =>
    let procWidth := wres.1
    let sres := deriveSurface cfg seg
    let smres := deriveSmoothness cfg seg
    let resolverMissing := wres.2 ++ sres.2 ++ smres.2
    let tc := trafficCtxOf cfg seg
    let proc_mandatory := deriveMandatory cfg seg one_way
    let filter_usable : ℤ :=
      if sMem proc_mandatory ["prohibited", "use_sidepath"] then 0 else 1
    let fwt := filterWayTypeOf seg.wayType
    let bi := baseIndexMain cfg seg
    let fw := facWidthOf cfg seg.wayType (getAccess seg "motor_vehicle")
      procWidth one_way
    let bonW : List String := if oqGtOne fw then ["wide width"] else []
    let malW : List String := if oqNarrow fw then ["narrow width"] else []
    match facSurfaceStep cfg smres.1 sres.1 prev with
    | none => none
    | some fs =>
      let bonS : List String := if fs > 1 then ["excellent surface"] else []
      let malS : List String := if fs ≠ 0 ∧ fs ≤ 1/2 then ["bad surface"] else []
      let fh := facHighwayOf cfg seg
      let fm := facMaxspeedOf cfg seg
      let missMs : List String := if maxspeedMissing seg then ["maxspeed"] else []
      let lts := computeLts cfg seg one_way procWidth
      match bi.1 with
      | none =>
        some { procOneway := one_way, procWidth := procWidth,
               procSurface := sres.1, procSmoothness := smres.1,
               resolverMissing := resolverMissing, tctx := tc,
               procMandatory := proc_mandatory, filterUsable := filter_usable,
               filterWayType := fwt, baseIndex := none, facWidth := fw,
               facSurface := fs, facHighway := fh, facMaxspeed := fm,
               fac1 := none, fac2 := none, fac3 := none, fac4 := none,
               index := none, index10 := none, stressLevel := lts,
               dataMissing := missMs,
               dataBonus := bi.2 ++ bonW ++ bonS,
               dataMalus := malW ++ malS,
               dataIncompleteness := computeIncompleteness cfg missMs }
      | some b =>
        let fac1 : ℚ := fac1Of fw fs
        let f2p := fac2Of cfg seg.wayType seg.procSidepath fh fm
        let bon2 : List String :=
          if f2p.2 ≥ 1/2 ∧ f2p.1 > 1 then ["slow traffic"] else []
        let mal2a : List String :=
          if f2p.2 ≥ 1/2 ∧ fh ≤ 7/10 then ["along a major road"] else []
        let mal2b : List String :=
          if f2p.2 ≥ 1/2 ∧ fm ≤ 7/10 then
            ["along a road with high speed limits"] else []
        let fac3 : ℚ := 1
        let f4 := fac4Of cfg seg tc
        let index : ℤ := indexOf b fac1 f2p.1 fac3 f4.1
        let dmiss := missMs ++ f4.2.2.2
        some { procOneway := one_way, procWidth := procWidth,
               procSurface := sres.1, procSmoothness := smres.1,
               resolverMissing := resolverMissing, tctx := tc,
               procMandatory := proc_mandatory, filterUsable := filter_usable,
               filterWayType := fwt, baseIndex := some b, facWidth := fw,
               facSurface := fs, facHighway := fh, facMaxspeed := fm,
               fac1 := some (roundQ2 fac1), fac2 := some (roundQ2 f2p.1),
               fac3 := some (roundQ2 fac3), fac4 := some (roundQ2 f4.1),
               index := some index, index10 := some (Int.fdiv index 10),
               stressLevel := lts,
               dataMissing := dmiss,
               dataBonus := bi.2 ++ bonW ++ bonS ++ bon2 ++ f4.2.1,
               dataMalus := malW ++ malS ++ mal2a ++ mal2b ++ f4.2.2.1,
               dataIncompleteness := computeIncompleteness cfg dmiss }

/-- The per-feature loop over a list of segments.  The Python local
`fac_surface` survives from one iteration to the next; a crash aborts the
whole run. -/
noncomputable def processAll (cfg : Config) : Option ℚ → List Seg → List (Option SegOut)
  | _, [] => []
  | prev, s :: rest =>
    match evalSegment cfg prev s with
    | none => [none]
    | some out => some out :: processAll cfg (some out.facSurface) rest

/-! ### Concrete records used by the scenario theorems -/

/-- A plain path: `highway=path`, `segregated=no`, `bicycle=yes`, no width
tag (the shared-path scenario). -/
def segPath : Seg :=
  { tags := [("highway", .s "path"), ("segregated", .s "no"),
             ("bicycle", .s "yes")],
    procSidepath := some "no" }

/-- The same record after the way-type stage assigned `shared path`. -/
def segPathW : Seg := { segPath with wayType := some "shared path" }

/-- A sidepath with a traffic sign carrying a not-mandatory token before a
mandatory token. -/
def segSigns : Seg :=
  { tags := [("traffic_sign", .s "1022-10;237")],
    wayType := some "cycle track", procSidepath := some "yes" }

/-- A segment with a recognized `smoothness:bicycle` value. -/
def segSmB : Seg :=
  { tags := [("smoothness:bicycle", .s "excellent")],
    wayType := some "cycle track" }

/-- A segment with a recognized `surface:bicycle` value. -/
def segSuB : Seg :=
  { tags := [("surface:bicycle", .s "asphalt")], wayType := some "cycle track" }

/-- A shared bus lane without motor-vehicle access and a narrow lane
(`width:lanes = 2|0.5`). -/
def segBus : Seg :=
  { tags := [("motor_vehicle", .s "no"), ("width:lanes", .s "2|0.5")],
    wayType := some "shared bus lane", side := some "right",
    procSidepath := some "yes" }

/-- A favourable exclusive cycle lane: very wide, excellent smoothness,
coloured surface. -/
def segLane : Seg :=
  { tags := [("cycleway:width", .n 160), ("smoothness", .s "excellent"),
             ("surface:colour", .s "red"), ("highway", .s "residential")],
    side := some "right", wayType := some "cycle lane (exclusive)",
    procSidepath := some "no" }

/-- The same lane with `bicycle=permissive` added. -/
def segLaneP : Seg := setTag segLane "bicycle" (.s "permissive")

/-- A shared road whose smoothness resolves (`excellent`). -/
def segSmoothA : Seg :=
  { tags := [("highway", .s "residential"), ("smoothness", .s "excellent")],
    wayType := some "shared road", procSidepath := some "no" }

/-- The same road with `smoothness=bad`. -/
def segSmoothB : Seg :=
  { tags := [("highway", .s "residential"), ("smoothness", .s "bad")],
    wayType := some "shared road", procSidepath := some "no" }

/-- A shared road where neither surface nor smoothness resolves to a factor
(`surface=foo` is unrecognized and raises no marker, smoothness is absent). -/
def segNoFactor : Seg :=
  { tags := [("highway", .s "residential"), ("surface", .s "foo")],
    wayType := some "shared road", procSidepath := some "no" }

/-- A one-way shared road with a bare `cycleway=lane` and `width=7`. -/
def segOnewayLane : Seg :=
  { tags := [("highway", .s "residential"), ("cycleway", .s "lane"),
             ("oneway", .s "yes"), ("width", .n 7)],
    wayType := some "shared road", procSidepath := some "no" }

/-- A configuration whose base-index table lacks the `crossing` way type
(the spec treats way types missing from that table as the trigger for a
null base index). -/
def cfgNoCrossing : Config :=
  { mCfg with base_index_dict := [("cycle path", 100)] }

/-- A crossing segment, paired with `cfgNoCrossing` above. -/
def segCrossing : Seg :=
  { tags := [("highway", .s "residential")],
    wayType := some "crossing", procSidepath := some "no" }

/-- A placeholder output record (used only to name the value inside a
`some` result via `Option.getD`). -/
def dummySegOut : SegOut :=
  { procOneway := "", procWidth := none, procSurface := none,
    procSmoothness := none, resolverMissing := [],
    tctx := { tml := none, tmr := none, sepL := none, sepR := none,
              bufL := none, bufR := none },
    procMandatory := none, filterUsable := 1, filterWayType := none,
    baseIndex := none, facWidth := none, facSurface := 0, facHighway := 1,
    facMaxspeed := 1, fac1 := none, fac2 := none, fac3 := none, fac4 := none,
    index := none, index10 := none, stressLevel := none, dataMissing := [],
    dataBonus := [], dataMalus := [], dataIncompleteness := 0 }

/-- The width factor of an ordinary shared road of width `4` (a named
handle on the value inside the `some`). -/
noncomputable def fwC5 : ℚ :=
  (facWidthOf mCfg (some "shared road") none (some 4) "no").getD 0

/-- The width factor `segBus` receives. -/
noncomputable def fwBus : ℚ :=
  (((evalSegment mCfg none segBus).getD dummySegOut).facWidth).getD 0

/-- The width factor `segLane` receives. -/
noncomputable def fwLane : ℚ :=
  (((evalSegment mCfg none segLane).getD dummySegOut).facWidth).getD 0

/-! ### Theorems -/

theorem roundHEQ_eq_cases (x : ℚ) :
    roundHEQ x = ⌊x⌋ ∨ roundHEQ x = ⌊x⌋ + 1 := by
  unfold roundHEQ
  split
  · exact Or.inl rfl
  · split
    · exact Or.inr rfl
    · split
      · exact Or.inl rfl
      · exact Or.inr rfl

theorem roundHEQ_nonneg {x : ℚ} (h : 0 ≤ x) : 0 ≤ roundHEQ x := by
  have hf : (0 : ℤ) ≤ ⌊x⌋ := Int.floor_nonneg.mpr h
  rcases roundHEQ_eq_cases x with h1 | h1 <;> omega

theorem roundHEQ_le_of_le {x : ℚ} {n : ℤ} (h : x ≤ n) : roundHEQ x ≤ n := by
  have hfn : ⌊x⌋ ≤ n := by
    have := Int.floor_mono h
    simpa using this
  rcases roundHEQ_eq_cases x with h1 | h1
  · omega
  · rw [h1]
    rcases lt_or_eq_of_le hfn with hlt | heq
    · omega
    · exfalso
      have hx : x - ⌊x⌋ < 1/2 := by
        have : (⌊x⌋ : ℚ) = n := by exact_mod_cast heq
        rw [this]
        linarith [show x ≤ (n : ℚ) from h]
      unfold roundHEQ at h1
      rw [if_pos hx] at h1
      omega

theorem roundHEQ_intCast (n : ℤ) : roundHEQ (n : ℚ) = n := by
  unfold roundHEQ
  rw [Int.floor_intCast]
  simp

theorem roundHEQ_ge (x : ℚ) : x - 1/2 ≤ (roundHEQ x : ℚ) := by
  have hfl : (⌊x⌋ : ℚ) ≤ x := Int.floor_le x
  have hfu : x < ⌊x⌋ + 1 := Int.lt_floor_add_one x
  unfold roundHEQ
  split
  · rename_i h1; linarith
  · split
    · push_cast; linarith
    · split
      · rename_i h1 h2 h3
        push_neg at h1 h2
        linarith
      · push_cast; linarith

theorem roundHEQ_le (x : ℚ) : (roundHEQ x : ℚ) ≤ x + 1/2 := by
  have hfl : (⌊x⌋ : ℚ) ≤ x := Int.floor_le x
  unfold roundHEQ
  split
  · linarith
  · rename_i h1
    push_neg at h1
    split
    · push_cast; linarith
    · rename_i h2
      push_neg at h2
      split
      · linarith
      · push_cast; linarith

theorem roundHER_eq_cases (x : ℝ) :
    roundHER x = ⌊x⌋ ∨ roundHER x = ⌊x⌋ + 1 := by
  unfold roundHER
  split
  · exact Or.inl rfl
  · split
    · exact Or.inr rfl
    · split
      · exact Or.inl rfl
      · exact Or.inr rfl

theorem roundHER_nonneg {x : ℝ} (h : 0 ≤ x) : 0 ≤ roundHER x := by
  have hf : (0 : ℤ) ≤ ⌊x⌋ := Int.floor_nonneg.mpr h
  rcases roundHER_eq_cases x with h1 | h1 <;> omega

theorem roundHER_le_of_le {x : ℝ} {n : ℤ} (h : x ≤ n) : roundHER x ≤ n := by
  have hfn : ⌊x⌋ ≤ n := by
    have := Int.floor_mono h
    simpa using this
  rcases roundHER_eq_cases x with h1 | h1
  · omega
  · rw [h1]
    rcases lt_or_eq_of_le hfn with hlt | heq
    · omega
    · exfalso
      have hx : x - ⌊x⌋ < 1/2 := by
        have : (⌊x⌋ : ℝ) = n := by exact_mod_cast heq
        rw [this]
        have hxn : x ≤ (n : ℝ) := h
        linarith
      unfold roundHER at h1
      rw [if_pos hx] at h1
      omega

theorem roundHER_ge (x : ℝ) : x - 1/2 ≤ (roundHER x : ℝ) := by
  have hfl : (⌊x⌋ : ℝ) ≤ x := Int.floor_le x
  have hfu : x < ⌊x⌋ + 1 := Int.lt_floor_add_one x
  unfold roundHER
  split
  · linarith
  · split
    · push_cast; linarith
    · split
      · rename_i h1 h2 h3
        push_neg at h1 h2
        linarith
      · push_cast; linarith

theorem roundHER_le (x : ℝ) : (roundHER x : ℝ) ≤ x + 1/2 := by
  have hfl : (⌊x⌋ : ℝ) ≤ x := Int.floor_le x
  unfold roundHER
  split
  · linarith
  · rename_i h1
    push_neg at h1
    split
    · push_cast; linarith
    · rename_i h2
      push_neg at h2
      split
      · linarith
      · push_cast; linarith

/-- A value strictly between `n + 1/2` and `n + 1` rounds up to `n + 1`. -/
theorem roundHER_eq_of_between {x : ℝ} {n : ℤ} (h1 : (n : ℝ) + 1/2 < x)
    (h2 : x < n + 1) : roundHER x = n + 1 := by
  have hfl : ⌊x⌋ = n := by
    apply Int.floor_eq_iff.mpr
    constructor
    · linarith
    · linarith
  unfold roundHER
  rw [hfl]
  have hr : (1 : ℝ)/2 < x - n := by linarith
  rw [if_neg (by push_neg; linarith), if_pos hr]

theorem roundQ3R_nonneg {x : ℝ} (h : 0 ≤ x) : 0 ≤ roundQ3R x := by
  unfold roundQ3R
  have h1 : (0 : ℤ) ≤ roundHER (1000 * x) := roundHER_nonneg (by linarith)
  have h2 : (0 : ℚ) ≤ (roundHER (1000 * x) : ℚ) := by exact_mod_cast h1
  linarith

theorem roundQ3R_le_two {x : ℝ} (h : x < 2) : roundQ3R x ≤ 2 := by
  unfold roundQ3R
  have h1 : roundHER (1000 * x) ≤ (2000 : ℤ) :=
    roundHER_le_of_le (by push_cast; linarith)
  have h2 : (roundHER (1000 * x) : ℚ) ≤ 2000 := by exact_mod_cast h1
  linarith

/-- `roundQ3R x` differs from `x` by at most `1/2000` (compared in ℝ). -/
theorem roundQ3R_close (x : ℝ) :
    x - 1/2000 ≤ (roundQ3R x : ℝ) ∧ (roundQ3R x : ℝ) ≤ x + 1/2000 := by
  have hg := roundHER_ge (1000 * x)
  have hl := roundHER_le (1000 * x)
  unfold roundQ3R
  constructor
  · push_cast
    linarith
  · push_cast
    linarith

theorem getTag_setTag_same (seg : Seg) (k : String) (v : TagVal) :
    getTag (setTag seg k v) k = some v := by
  simp [getTag, setTag, List.find?]

theorem getTag_setTag_ne (seg : Seg) (k k' : String) (v : TagVal)
    (h : k' ≠ k) : getTag (setTag seg k v) k' = getTag seg k' := by
  simp only [getTag, setTag, List.find?]
  have : (k == k') = false := by
    simp only [beq_eq_false_iff_ne]
    exact fun hc => h hc.symm
  simp [this]

theorem roundHEQ_mono {x y : ℚ} (h : x ≤ y) : roundHEQ x ≤ roundHEQ y := by
  have hf : ⌊x⌋ ≤ ⌊y⌋ := Int.floor_mono h
  by_cases hlt : ⌊x⌋ < ⌊y⌋
  · rcases roundHEQ_eq_cases x with hx | hx <;>
      rcases roundHEQ_eq_cases y with hy | hy <;> omega
  · have heq : ⌊y⌋ = ⌊x⌋ := by omega
    have hrr : x - ⌊x⌋ ≤ y - ⌊x⌋ := by linarith
    unfold roundHEQ
    rw [heq]
    split
    · -- x rounds down to its floor; every y branch is at least that
      split
      · omega
      · split
        · omega
        · split
          · omega
          · omega
    · rename_i h1
      push_neg at h1
      split
      · -- 1/2 < x - ⌊x⌋ : x rounds up
        rename_i h2
        split
        · rename_i h3
          exfalso; linarith
        · split
          · omega
          · rename_i h3 h4
            push_neg at h3 h4
            exfalso; linarith
      · rename_i h2
        push_neg at h2
        -- x - ⌊x⌋ = 1/2 exactly: tie broken by parity
        split
        · -- even floor: x rounds down
          split
          · omega
          · split
            · omega
            · omega
        · -- odd floor: x rounds up
          rename_i hpar
          split
          · rename_i h3
            exfalso; linarith
          · split
            · omega
            · omega

theorem roundHEQ_sub_even (x : ℚ) (k : ℤ) (hk : k % 2 = 0) :
    roundHEQ (x - k) = roundHEQ x - k := by
  unfold roundHEQ
  rw [show x - (k : ℚ) = x + (-k : ℤ) by push_cast; ring, Int.floor_add_int]
  have hfr : x + ((-k : ℤ) : ℚ) - ((⌊x⌋ + -k : ℤ) : ℚ) = x - ⌊x⌋ := by
    push_cast; ring
  rw [hfr]
  have hpar : (⌊x⌋ + -k) % 2 = ⌊x⌋ % 2 := by omega
  rw [hpar]
  split
  · omega
  · split
    · omega
    · split
      · omega
      · omega

theorem roundQ2_sub_fifth (f : ℚ) : roundQ2 (f - 1/5) = roundQ2 f - 1/5 := by
  unfold roundQ2
  rw [show (100 : ℚ) * (f - 1/5) = 100 * f - ((20 : ℤ) : ℚ) by push_cast; ring]
  rw [roundHEQ_sub_even (100 * f) 20 (by omega)]
  push_cast
  ring

theorem roundHER_ge_of_le {x : ℝ} {n : ℤ} (h : (n : ℝ) ≤ x) : n ≤ roundHER x := by
  have hfn : n ≤ ⌊x⌋ := Int.le_floor.mpr h
  rcases roundHER_eq_cases x with h1 | h1 <;> omega

theorem roundQ3R_ge_quarter {x : ℝ} (h : (1/4 : ℝ) ≤ x) :
    (1/4 : ℚ) ≤ roundQ3R x := by
  unfold roundQ3R
  have h1 : (250 : ℤ) ≤ roundHER (1000 * x) :=
    roundHER_ge_of_le (by push_cast; linarith)
  have h2 : (250 : ℚ) ≤ (roundHER (1000 * x) : ℚ) := by exact_mod_cast h1
  linarith

/-- `exp x ≤ (1 - x)⁻¹` for `x < 1`. -/
theorem exp_le_inv_one_sub {x : ℝ} (h1 : x < 1) :
    Real.exp x ≤ (1 - x)⁻¹ := by
  have hpos : (0 : ℝ) < 1 - x := by linarith
  have h2 : 1 - x ≤ (Real.exp x)⁻¹ := by
    rw [← Real.exp_neg]
    linarith [Real.add_one_le_exp (-x)]
  have hep : (0 : ℝ) < Real.exp x := Real.exp_pos x
  rw [inv_eq_one_div, le_div_iff₀ hpos]
  have h3 : Real.exp x * (1 - x) ≤ Real.exp x * (Real.exp x)⁻¹ :=
    mul_le_mul_of_nonneg_left h2 (le_of_lt hep)
  rw [mul_inv_cancel₀ (ne_of_gt hep)] at h3
  exact h3

theorem setTag_side (seg : Seg) (k : String) (v : TagVal) :
    (setTag seg k v).side = seg.side := rfl

theorem setTag_typeAttr (seg : Seg) (k : String) (v : TagVal) :
    (setTag seg k v).typeAttr = seg.typeAttr := rfl

theorem setTag_wayType (seg : Seg) (k : String) (v : TagVal) :
    (setTag seg k v).wayType = seg.wayType := rfl

theorem setTag_procSidepath (seg : Seg) (k : String) (v : TagVal) :
    (setTag seg k v).procSidepath = seg.procSidepath := rfl

theorem setTag_procHighway (seg : Seg) (k : String) (v : TagVal) :
    (setTag seg k v).procHighway = seg.procHighway := rfl

theorem setTag_procMaxspeed (seg : Seg) (k : String) (v : TagVal) :
    (setTag seg k v).procMaxspeed = seg.procMaxspeed := rfl

theorem getTag_setTag_bne (seg : Seg) (k k' : String) (v : TagVal)
    (h : (k == k') = false) : getTag (setTag seg k v) k' = getTag seg k' := by
  simp only [getTag, setTag, List.find?]
  simp [h]

theorem deriveOnewayStatus_bic (cfg : Config) (seg : Seg) (v : TagVal) :
    deriveOnewayStatus cfg (setTag seg "bicycle" v) = deriveOnewayStatus cfg seg := by
  unfold deriveOnewayStatus
  rw [setTag_wayType, setTag_side]
  rw [getTag_setTag_bne seg "bicycle" "oneway" v (by decide)]
  rw [getTag_setTag_bne seg "bicycle" "oneway:bicycle" v (by decide)]
  rw [getTag_setTag_bne seg "bicycle" "cycleway:oneway" v (by decide)]

theorem getPrecalculatedFeatureWidth_bic (seg : Seg) (v : TagVal) :
    getPrecalculatedFeatureWidth (setTag seg "bicycle" v)
      = getPrecalculatedFeatureWidth seg := by
  unfold getPrecalculatedFeatureWidth
  rw [getTag_setTag_bne seg "bicycle" "cycleway:width" v (by decide)]
  rw [getTag_setTag_bne seg "bicycle" "width" v (by decide)]

theorem getDefaultWidthForWayType_bic (cfg : Config) (seg : Seg) (v : TagVal) :
    getDefaultWidthForWayType cfg (setTag seg "bicycle" v)
      = getDefaultWidthForWayType cfg seg := by
  unfold getDefaultWidthForWayType
  rw [setTag_wayType]

theorem getWidthFootway_bic (seg : Seg) (v : TagVal) :
    getWidthFootway (setTag seg "bicycle" v) = getWidthFootway seg := by
  unfold getWidthFootway
  rw [getTag_setTag_bne seg "bicycle" "width" v (by decide)]
  rw [getTag_setTag_bne seg "bicycle" "footway:width" v (by decide)]

theorem assureDefaultWidth_bic (cfg : Config) (seg : Seg) (v : TagVal) (ow : String) :
    assureDefaultWidth cfg (setTag seg "bicycle" v) ow = assureDefaultWidth cfg seg ow := by
  unfold assureDefaultWidth
  rw [getTag_setTag_bne seg "bicycle" "width" v (by decide)]
  rw [getTag_setTag_bne seg "bicycle" "highway" v (by decide)]

theorem getParkingStatus_bic (seg : Seg) (v : TagVal) :
    getParkingStatus (setTag seg "bicycle" v) = getParkingStatus seg := by
  unfold getParkingStatus
  rw [getTag_setTag_bne seg "bicycle" "parking:both" v (by decide)]
  rw [getTag_setTag_bne seg "bicycle" "parking:left" v (by decide)]
  rw [getTag_setTag_bne seg "bicycle" "parking:right" v (by decide)]

theorem getParkingWidth_bic (cfg : Config) (seg : Seg) (v : TagVal) :
    getParkingWidth cfg (setTag seg "bicycle" v) = getParkingWidth cfg seg := by
  unfold getParkingWidth
  rw [getTag_setTag_bne seg "bicycle" "parking:left" v (by decide)]
  rw [getTag_setTag_bne seg "bicycle" "parking:left:orientation" v (by decide)]
  rw [getTag_setTag_bne seg "bicycle" "parking:left:width" v (by decide)]
  rw [getTag_setTag_bne seg "bicycle" "parking:right" v (by decide)]
  rw [getTag_setTag_bne seg "bicycle" "parking:right:orientation" v (by decide)]
  rw [getTag_setTag_bne seg "bicycle" "parking:right:width" v (by decide)]
  rw [getTag_setTag_bne seg "bicycle" "parking:both" v (by decide)]
  rw [getTag_setTag_bne seg "bicycle" "parking:both:orientation" v (by decide)]
  rw [getTag_setTag_bne seg "bicycle" "parking:both:width" v (by decide)]

theorem getCyclewayAttributes_bic (seg : Seg) (v : TagVal) :
    getCyclewayAttributes (setTag seg "bicycle" v) = getCyclewayAttributes seg := by
  unfold getCyclewayAttributes
  rw [getTag_setTag_bne seg "bicycle" "cycleway" v (by decide)]
  rw [getTag_setTag_bne seg "bicycle" "cycleway:left" v (by decide)]
  rw [getTag_setTag_bne seg "bicycle" "cycleway:right" v (by decide)]
  rw [getTag_setTag_bne seg "bicycle" "cycleway:both" v (by decide)]
  rw [getTag_setTag_bne seg "bicycle" "cycleway:width" v (by decide)]
  rw [getTag_setTag_bne seg "bicycle" "cycleway:left:width" v (by decide)]
  rw [getTag_setTag_bne seg "bicycle" "cycleway:right:width" v (by decide)]
  rw [getTag_setTag_bne seg "bicycle" "cycleway:both:width" v (by decide)]

theorem makeCyclewayBuffers_bic (cfg : Config) (seg : Seg) (v : TagVal) :
    makeCyclewayBuffers cfg (setTag seg "bicycle" v) = makeCyclewayBuffers cfg seg := by
  unfold makeCyclewayBuffers
  rw [getCyclewayAttributes_bic]

theorem bufferKey_len (s t : String) : 15 ≤ (bufferKey s t).length := by
  unfold bufferKey
  simp only [String.length_append]
  have h1 : 0 ≤ (if s == "" then "" else ":" ++ s).length := Nat.zero_le _
  have h2 : 0 ≤ (if t == "" then "" else ":" ++ t).length := Nat.zero_le _
  have h3 : ("cycleway").length = 8 := rfl
  have h4 : (":buffer").length = 7 := rfl
  omega

theorem bicycle_bne_bufferKey (s t : String) :
    ("bicycle" == bufferKey s t) = false := by
  rw [beq_eq_false_iff_ne]
  intro h
  have hlen := bufferKey_len s t
  rw [← h] at hlen
  have h7 : ("bicycle" : String).length = 7 := rfl
  omega

theorem bufferAttr_bic (seg : Seg) (v : TagVal) (s t : String) :
    bufferAttr (setTag seg "bicycle" v) s t = bufferAttr seg s t := by
  unfold bufferAttr
  exact getTag_setTag_bne _ _ _ _ (bicycle_bne_bufferKey s t)

theorem processBuffer_bic (seg : Seg) (v : TagVal) (side : String) :
    processBuffer (setTag seg "bicycle" v) side = processBuffer seg side := by
  unfold processBuffer
  simp only [bufferAttr_bic]

theorem calcFeatureWidth_bic (cfg : Config) (seg : Seg) (v : TagVal) (ow : String) :
    calcFeatureWidth cfg (setTag seg "bicycle" v) ow = calcFeatureWidth cfg seg ow := by
  unfold calcFeatureWidth
  rw [setTag_wayType, setTag_side]
  simp only [getPrecalculatedFeatureWidth_bic, getDefaultWidthForWayType_bic,
    getWidthFootway_bic, assureDefaultWidth_bic, getParkingStatus_bic,
    getParkingWidth_bic, makeCyclewayBuffers_bic, processBuffer_bic]
  rw [getTag_setTag_bne seg "bicycle" "highway" v (by decide)]
  rw [getTag_setTag_bne seg "bicycle" "cycleway:width" v (by decide)]
  rw [getTag_setTag_bne seg "bicycle" "width" v (by decide)]
  rw [getTag_setTag_bne seg "bicycle" "width:lanes" v (by decide)]
  rw [getTag_setTag_bne seg "bicycle" "width:lanes:forward" v (by decide)]
  rw [getTag_setTag_bne seg "bicycle" "width:lanes:backward" v (by decide)]
  rw [getTag_setTag_bne seg "bicycle" "width:effective" v (by decide)]
  rw [getTag_setTag_bne seg "bicycle" "lanes" v (by decide)]

theorem getDefaultSurface_bic (cfg : Config) (seg : Seg) (v : TagVal) (wt : String) :
    getDefaultSurface cfg (setTag seg "bicycle" v) wt = getDefaultSurface cfg seg wt := by
  unfold getDefaultSurface
  rw [getTag_setTag_bne seg "bicycle" "tracktype" v (by decide)]
  rw [getTag_setTag_bne seg "bicycle" "highway" v (by decide)]

theorem deriveSurface_bic (cfg : Config) (seg : Seg) (v : TagVal) :
    deriveSurface cfg (setTag seg "bicycle" v) = deriveSurface cfg seg := by
  unfold deriveSurface
  rw [setTag_wayType]
  simp only [getDefaultSurface_bic]
  rw [getTag_setTag_bne seg "bicycle" "surface:bicycle" v (by decide)]
  rw [getTag_setTag_bne seg "bicycle" "cycleway:surface" v (by decide)]
  rw [getTag_setTag_bne seg "bicycle" "surface" v (by decide)]
  rw [getTag_setTag_bne seg "bicycle" "highway" v (by decide)]

theorem deriveSmoothness_bic (cfg : Config) (seg : Seg) (v : TagVal) :
    deriveSmoothness cfg (setTag seg "bicycle" v) = deriveSmoothness cfg seg := by
  unfold deriveSmoothness
  rw [setTag_wayType]
  rw [getTag_setTag_bne seg "bicycle" "smoothness:bicycle" v (by decide)]
  rw [getTag_setTag_bne seg "bicycle" "cycleway:smoothness" v (by decide)]
  rw [getTag_setTag_bne seg "bicycle" "smoothness" v (by decide)]

theorem trafficCtxOf_bic (cfg : Config) (seg : Seg) (v : TagVal) :
    trafficCtxOf cfg (setTag seg "bicycle" v) = trafficCtxOf cfg seg := by
  unfold trafficCtxOf
  rw [setTag_wayType, setTag_side, setTag_procSidepath]
  rw [getTag_setTag_bne seg "bicycle" "traffic_mode:left" v (by decide)]
  rw [getTag_setTag_bne seg "bicycle" "traffic_mode:right" v (by decide)]
  rw [getTag_setTag_bne seg "bicycle" "traffic_mode:both" v (by decide)]
  rw [getTag_setTag_bne seg "bicycle" "parking:right" v (by decide)]
  rw [getTag_setTag_bne seg "bicycle" "parking:left" v (by decide)]
  rw [getTag_setTag_bne seg "bicycle" "parking:both" v (by decide)]
  rw [getTag_setTag_bne seg "bicycle" "separation:left" v (by decide)]
  rw [getTag_setTag_bne seg "bicycle" "separation:right" v (by decide)]
  rw [getTag_setTag_bne seg "bicycle" "separation:both" v (by decide)]
  rw [getTag_setTag_bne seg "bicycle" "separation" v (by decide)]
  rw [getTag_setTag_bne seg "bicycle" "buffer:left" v (by decide)]
  rw [getTag_setTag_bne seg "bicycle" "buffer:right" v (by decide)]
  rw [getTag_setTag_bne seg "bicycle" "buffer:both" v (by decide)]
  rw [getTag_setTag_bne seg "bicycle" "buffer" v (by decide)]

theorem getAccess_motor_bic (seg : Seg) (v : TagVal) :
    getAccess (setTag seg "bicycle" v) "motor_vehicle" = getAccess seg "motor_vehicle" := by
  unfold getAccess
  rw [getTag_setTag_bne seg "bicycle" "motor_vehicle" v (by decide)]
  rw [getTag_setTag_bne seg "bicycle" "access" v (by decide)]

theorem baseIndexMain_bic (cfg : Config) (seg : Seg) (v : TagVal) :
    baseIndexMain cfg (setTag seg "bicycle" v) = baseIndexMain cfg seg := by
  unfold baseIndexMain
  rw [setTag_wayType, getAccess_motor_bic]

theorem computeLts_bic (cfg : Config) (seg : Seg) (v : TagVal) (ow : String)
    (pw : Option ℚ) :
    computeLts cfg (setTag seg "bicycle" v) ow pw = computeLts cfg seg ow pw := by
  unfold computeLts
  rw [setTag_wayType, getAccess_motor_bic, setTag_procMaxspeed, setTag_procHighway]
  rw [getTag_setTag_bne seg "bicycle" "priority_road" v (by decide)]

theorem fac4Core_bic (cfg : Config) (seg : Seg) (v : TagVal) (tc : TCtx) :
    fac4Core cfg (setTag seg "bicycle" v) tc = fac4Core cfg seg tc := by
  unfold fac4Core
  rw [setTag_wayType, setTag_procSidepath]
  rw [getTag_setTag_bne seg "bicycle" "cycleway" v (by decide)]
  rw [getTag_setTag_bne seg "bicycle" "cycleway:both" v (by decide)]
  rw [getTag_setTag_bne seg "bicycle" "cycleway:left" v (by decide)]
  rw [getTag_setTag_bne seg "bicycle" "cycleway:right" v (by decide)]
  rw [getTag_setTag_bne seg "bicycle" "surface:colour" v (by decide)]
  rw [getTag_setTag_bne seg "bicycle" "crossing" v (by decide)]
  rw [getTag_setTag_bne seg "bicycle" "crossing:markings" v (by decide)]
  rw [getTag_setTag_bne seg "bicycle" "lit" v (by decide)]

theorem fac4Of_perm (cfg : Config) (seg : Seg) (tc : TCtx)
    (hbic : getTag seg "bicycle" = none) :
    fac4Of cfg (setTag seg "bicycle" (.s "permissive")) tc
      = ((fac4Core cfg seg tc).1 - 1/5, (fac4Core cfg seg tc).2.1,
         (fac4Core cfg seg tc).2.2.1 ++ ["cycling not intended"],
         (fac4Core cfg seg tc).2.2.2)
      ∧ fac4Of cfg seg tc = fac4Core cfg seg tc := by
  unfold fac4Of
  rw [fac4Core_bic, getTag_setTag_same, hbic]
  constructor
  · rfl
  · rfl

theorem deriveMandatory_perm (cfg : Config) (seg : Seg) (ow : String)
    (hbic : getTag seg "bicycle" = none) :
    deriveMandatory cfg (setTag seg "bicycle" (.s "permissive")) ow
      = deriveMandatory cfg seg ow := by
  unfold deriveMandatory
  rw [setTag_wayType, setTag_procSidepath, getTag_setTag_same, hbic]
  rw [getTag_setTag_bne seg "bicycle" "cycleway" (.s "permissive") (by decide)]
  rw [getTag_setTag_bne seg "bicycle" "cycleway:both" (.s "permissive") (by decide)]
  rw [getTag_setTag_bne seg "bicycle" "cycleway:right" (.s "permissive") (by decide)]
  rw [getTag_setTag_bne seg "bicycle" "traffic_sign" (.s "permissive") (by decide)]
  rw [getTag_setTag_bne seg "bicycle" "highway" (.s "permissive") (by decide)]
  simp [valMem, valIs, asStr]

theorem facWidthRaw_bounds (wt : Option String) (cw2 : ℚ) :
    0 < facWidthRaw wt cw2 ∧ facWidthRaw wt cw2 < 2 := by
  unfold facWidthRaw
  split
  · have e1 := Real.exp_pos (-(21/10) * (cw2 : ℝ))
    constructor
    · positivity
    · rw [div_lt_iff₀ (by linarith)]
      linarith
  · have e2 := Real.exp_pos (-(6/25) * (cw2 : ℝ))
    constructor
    · positivity
    · rw [div_lt_iff₀ (by linarith)]
      linarith

theorem facWidthCurve_bounds (cfg : Config) (wt acc : Option String) (cw2 : ℚ) :
    0 < facWidthCurve cfg wt acc cw2 ∧ facWidthCurve cfg wt acc cw2 < 2 := by
  obtain ⟨h1, h2⟩ := facWidthRaw_bounds wt cw2
  unfold facWidthCurve
  split
  · constructor <;> linarith
  · exact ⟨h1, h2⟩

theorem lookup?_q_nonneg {t : List (String × ℚ)} (ht : ∀ p ∈ t, 0 ≤ p.2)
    {k : String} {v : ℚ} (h : lookup? t k = some v) : 0 ≤ v := by
  unfold lookup? at h
  cases hf : List.find? (fun p => p.1 == k) t with
  | none => rw [hf] at h; cases h
  | some p =>
    rw [hf] at h
    simp only [Option.map_some'] at h
    have hm := List.mem_of_find?_eq_some hf
    have := ht p hm
    injection h with h2
    exact h2 ▸ this

theorem lookup?_z_nonneg {t : List (String × ℤ)} (ht : ∀ p ∈ t, 0 ≤ p.2)
    {k : String} {v : ℤ} (h : lookup? t k = some v) : 0 ≤ v := by
  unfold lookup? at h
  cases hf : List.find? (fun p => p.1 == k) t with
  | none => rw [hf] at h; cases h
  | some p =>
    rw [hf] at h
    simp only [Option.map_some'] at h
    have hm := List.mem_of_find?_eq_some hf
    have := ht p hm
    injection h with h2
    exact h2 ▸ this

theorem lookupD_q_nonneg {t : List (String × ℚ)} (ht : ∀ p ∈ t, 0 ≤ p.2)
    (k : String) {d : ℚ} (hd : 0 ≤ d) : 0 ≤ lookupD t k d := by
  unfold lookupD
  cases hf : lookup? t k with
  | none => simpa using hd
  | some v => simpa using lookup?_q_nonneg ht hf

theorem indexOf_bounds (b : ℤ) (f1 f2 f3 f4 : ℚ) :
    0 ≤ indexOf b f1 f2 f3 f4 ∧ indexOf b f1 f2 f3 f4 ≤ 100 := by
  unfold indexOf
  constructor
  · exact roundHEQ_nonneg (le_max_right _ _)
  · apply roundHEQ_le_of_le
    have h1 : min 100 ((b : ℚ) * f1 * f2 * f3 * f4) ≤ 100 := min_le_left _ _
    have h2 : max (min 100 ((b : ℚ) * f1 * f2 * f3 * f4)) 0 ≤ 100 :=
      max_le h1 (by norm_num)
    exact_mod_cast h2

theorem indexOf_mono_f4 {b : ℤ} {f1 f2 f3 : ℚ} {x y : ℚ}
    (hpre : 0 ≤ (b : ℚ) * f1 * f2 * f3) (hxy : x ≤ y) :
    indexOf b f1 f2 f3 x ≤ indexOf b f1 f2 f3 y := by
  unfold indexOf
  apply roundHEQ_mono
  have hp : (b : ℚ) * f1 * f2 * f3 * x ≤ (b : ℚ) * f1 * f2 * f3 * y :=
    mul_le_mul_of_nonneg_left hxy hpre
  exact max_le_max (min_le_min le_rfl hp) le_rfl

theorem foldl_scanStep_char (mand notMand : List String) (toks : List String)
    (st : Option String) :
    toks.foldl (scanStep mand notMand) st
      = match toks.reverse.find?
          (fun tok => mand.any (fun m => strContains tok m)
            || notMand.any (fun m => strContains tok m)) with
        | some tok =>
            some (if mand.any (fun m => strContains tok m) then "yes" else "no")
        | none => st := by
  induction toks using List.reverseRecOn generalizing st with
  | nil => simp
  | append_singleton l a ih =>
    rw [List.foldl_append, List.reverse_append]
    simp only [List.foldl_cons, List.foldl_nil, List.reverse_singleton,
      List.singleton_append, List.find?_cons]
    cases hma : mand.any (fun m => strContains a m) <;>
      cases hna : notMand.any (fun m => strContains a m) <;>
      simp [scanStep, hma, hna, ih st]

/-- C3: the traffic-sign scan of the mandatory-use derivation is
last-match-wins: the token scan (not-mandatory set checked before the
mandatory set, each match overwriting the current value) assigns the value
decided by the *last* matching token of the semicolon-delimited list, not
the first. -/
theorem c3_last_match_wins (mand notMand : List String) (ts : String) :
    scanTrafficSigns mand notMand ts = lastMatchScan mand notMand ts := by
  unfold scanTrafficSigns lastMatchScan
  rw [foldl_scanStep_char]
  cases h : List.find?
      (fun tok => mand.any (fun m => strContains tok m)
        || notMand.any (fun m => strContains tok m))
      (getDelimitedValues (commasToSemis ts) ";").reverse <;>
    simp [h]

/-- C3 counterexample to the first-assignment-wins reading: on the sidepath
segment `segSigns` (`traffic_sign=1022-10;237`, a not-mandatory token before
a mandatory one), the executed scan and the full mandatory-use derivation
yield `yes`, while the first-assignment-wins reading yields `no`. -/
theorem c3_counterexample :
    deriveMandatory mCfg segSigns "no" = some "yes"
    ∧ scanTrafficSigns mCfg.mandatory_traffic_sign_list
        mCfg.not_mandatory_traffic_sign_list "1022-10;237" = some "yes"
    ∧ specFirstAssignScan mCfg.mandatory_traffic_sign_list
        mCfg.not_mandatory_traffic_sign_list "1022-10;237" = some "no" := by
  refine ⟨by with_unfolding_all decide, by with_unfolding_all decide,
    by with_unfolding_all decide⟩

/-- C4: the smoothness resolver drops a recognized `smoothness:bicycle`
value: on `segSmB` (`smoothness:bicycle=excellent`, a recognized key of the
smoothness factor table) the derived `proc_smoothness` is null and no
missing marker is raised, contradicting the claimed precedence of the
bicycle-specific tag; the surface resolver keeps a recognized
`surface:bicycle` value as claimed (`segSuB`). -/
theorem c4_smoothness_bicycle_dropped :
    isKey mCfg.smoothness_factor_dict (getTag segSmB "smoothness:bicycle") = true
    ∧ deriveSmoothness mCfg segSmB = (none, [])
    ∧ deriveSurface mCfg segSuB = (some (.s "asphalt"), []) := by
  refine ⟨by with_unfolding_all decide, by with_unfolding_all decide,
    by with_unfolding_all decide⟩

/-- C9: the core computation is not total: on `segNoFactor` (an unrecognized
`surface` value and no smoothness tag) the surface-factor assignment finds
no branch to execute, the loop-local factor is unbound on the first
iteration, and the run aborts (the `NameError` of
cycling_quality_index.py:1452). -/
theorem c9_surface_factor_crash :
    facSurfaceStep mCfg (deriveSmoothness mCfg segNoFactor).1
        (deriveSurface mCfg segNoFactor).1 none = none
    ∧ processAll mCfg none [segNoFactor] = [none] := by
  constructor
  · with_unfolding_all decide
  · with_unfolding_all rfl

/-- C8: the engine is not a pure per-segment function: the surface factor
of `segNoFactor` (whose own tags resolve to no factor) equals whatever
factor the *previous* segment left behind — `1.1` after an `excellent`
segment and `0.3` after a `bad` one — so the result depends on which
segments were processed before it. -/
theorem c8_cross_segment_state :
    (processAll mCfg none [segSmoothA, segNoFactor]).map
        (Option.map SegOut.facSurface) = [some (11/10), some (11/10)]
    ∧ (processAll mCfg none [segSmoothB, segNoFactor]).map
        (Option.map SegOut.facSurface) = [some (3/10), some (3/10)] := by
  exact ⟨by with_unfolding_all rfl, by with_unfolding_all rfl⟩

/-- C1: for every processed segment, the final `index` is either null or an
integer in `[0, 100]` (the clamped and rounded factor product), and whenever
it is non-null, `index_10` is `index // 10` (Python floor division). -/
theorem c1_index_range (cfg : Config) (prev : Option ℚ) (seg : Seg) (out : SegOut)
    (h : evalSegment cfg prev seg = some out) :
    (out.index = none ∧ out.index10 = none) ∨
    ∃ i : ℤ, out.index = some i ∧ 0 ≤ i ∧ i ≤ 100
      ∧ out.index10 = some (Int.fdiv i 10) := by
  unfold evalSegment at h
  simp only [] at h
  split at h
  · exact Option.noConfusion h
  · split at h
    · exact Option.noConfusion h
    · split at h
      · rw [Option.some_inj] at h
        subst h
        exact Or.inl ⟨rfl, rfl⟩
      · rw [Option.some_inj] at h
        subst h
        refine Or.inr ⟨_, rfl, ?_, ?_, rfl⟩
        · exact (indexOf_bounds _ _ _ _ _).1
        · exact (indexOf_bounds _ _ _ _ _).2

/-- C1 witness: the shared-path record evaluates and its index lies in
range. -/
theorem c1_witness :
    (((evalSegment mCfg none segPathW).getD dummySegOut).index = none
      ∧ ((evalSegment mCfg none segPathW).getD dummySegOut).index10 = none) ∨
    ∃ i : ℤ, ((evalSegment mCfg none segPathW).getD dummySegOut).index = some i
      ∧ 0 ≤ i ∧ i ≤ 100
      ∧ ((evalSegment mCfg none segPathW).getD dummySegOut).index10
          = some (Int.fdiv i 10) :=
  c1_index_range mCfg none segPathW
    ((evalSegment mCfg none segPathW).getD dummySegOut)
    (by with_unfolding_all rfl)

/-- C2: a segment whose way type has no base-index entry reports null
`base_index`, factors `1`–`4`, `index` and `index_10`, while the stress
level and the data-completeness number are still computed. -/
theorem c2_null_base_skips_index (cfg : Config) (prev : Option ℚ) (seg : Seg)
    (out : SegOut) (h : evalSegment cfg prev seg = some out)
    (hb : (baseIndexMain cfg seg).1 = none) :
    out.baseIndex = none ∧ out.index = none ∧ out.index10 = none
    ∧ out.fac1 = none ∧ out.fac2 = none ∧ out.fac3 = none ∧ out.fac4 = none
    ∧ out.stressLevel = computeLts cfg seg (deriveOnewayStatus cfg seg) out.procWidth
    ∧ out.dataIncompleteness = computeIncompleteness cfg out.dataMissing := by
  unfold evalSegment at h
  simp only [] at h
  split at h
  · exact Option.noConfusion h
  · split at h
    · exact Option.noConfusion h
    · split at h
      · rw [Option.some_inj] at h
        subst h
        exact ⟨rfl, rfl, rfl, rfl, rfl, rfl, rfl, rfl, rfl⟩
      · rename_i b hbs
        rw [hb] at hbs
        exact Option.noConfusion hbs

/-- C2 witness: a crossing under a base-index table without a `crossing`
entry. -/
theorem c2_witness :
    ((evalSegment cfgNoCrossing none segCrossing).getD dummySegOut).baseIndex = none
    ∧ ((evalSegment cfgNoCrossing none segCrossing).getD dummySegOut).index = none
    ∧ ((evalSegment cfgNoCrossing none segCrossing).getD dummySegOut).index10 = none
    ∧ ((evalSegment cfgNoCrossing none segCrossing).getD dummySegOut).fac1 = none
    ∧ ((evalSegment cfgNoCrossing none segCrossing).getD dummySegOut).fac2 = none
    ∧ ((evalSegment cfgNoCrossing none segCrossing).getD dummySegOut).fac3 = none
    ∧ ((evalSegment cfgNoCrossing none segCrossing).getD dummySegOut).fac4 = none
    ∧ ((evalSegment cfgNoCrossing none segCrossing).getD dummySegOut).stressLevel
        = computeLts cfgNoCrossing segCrossing
            (deriveOnewayStatus cfgNoCrossing segCrossing)
            ((evalSegment cfgNoCrossing none segCrossing).getD dummySegOut).procWidth
    ∧ ((evalSegment cfgNoCrossing none segCrossing).getD dummySegOut).dataIncompleteness
        = computeIncompleteness cfgNoCrossing
            ((evalSegment cfgNoCrossing none segCrossing).getD dummySegOut).dataMissing :=
  c2_null_base_skips_index cfgNoCrossing none segCrossing
    ((evalSegment cfgNoCrossing none segCrossing).getD dummySegOut)
    (by with_unfolding_all rfl) (by with_unfolding_all rfl)

/-- C6: the plain-path scenario: `highway=path`, `segregated=no`,
`bicycle=yes` and no width tag classifies as `shared path`; the processed
width is the configured default path width times `1.6`; the `width` missing
marker is raised; and the data-completeness number is non-zero (`5`, from
the `lit` marker summed at cycling_quality_index.py:1719). -/
theorem c6_shared_path_scenario :
    determineWayType segPath = some "shared path"
    ∧ ∃ out, evalSegment mCfg none segPathW = some out
        ∧ out.procWidth = some (lookupD mCfg.default_highway_width_dict "path"
            mCfg.default_highway_width_fallback * (8/5))
        ∧ out.resolverMissing = ["width", "surface", "smoothness"]
        ∧ out.dataIncompleteness = 5 := by
  refine ⟨by with_unfolding_all rfl,
    (evalSegment mCfg none segPathW).getD dummySegOut,
    by with_unfolding_all rfl, by with_unfolding_all rfl,
    by with_unfolding_all rfl, by with_unfolding_all rfl⟩

theorem getCyclewayAttributes_ow (seg : Seg) (v : TagVal) :
    getCyclewayAttributes (setTag seg "oneway" v) = getCyclewayAttributes seg := by
  unfold getCyclewayAttributes
  rw [getTag_setTag_bne seg "oneway" "cycleway" v (by decide)]
  rw [getTag_setTag_bne seg "oneway" "cycleway:left" v (by decide)]
  rw [getTag_setTag_bne seg "oneway" "cycleway:right" v (by decide)]
  rw [getTag_setTag_bne seg "oneway" "cycleway:both" v (by decide)]
  rw [getTag_setTag_bne seg "oneway" "cycleway:width" v (by decide)]
  rw [getTag_setTag_bne seg "oneway" "cycleway:left:width" v (by decide)]
  rw [getTag_setTag_bne seg "oneway" "cycleway:right:width" v (by decide)]
  rw [getTag_setTag_bne seg "oneway" "cycleway:both:width" v (by decide)]

/-- C10: the left/right splitting of the plain `cycleway`/`cycleway:width`
tags inside the buffer derivation ignores the `oneway` tag entirely (the
source hardcodes `oneway = False` at cycling_quality_index.py:870), so a
bare `cycleway=lane` on a `oneway=yes` road is assigned to both sides and
the carriageway width loses one default lane width per side
(`7 − 1.6 − 1.6 = 3.8`). -/
theorem c10_cycleway_split_ignores_oneway :
    (∀ (seg : Seg) (v : TagVal),
      makeCyclewayBuffers mCfg (setTag seg "oneway" v) = makeCyclewayBuffers mCfg seg)
    ∧ getTag segOnewayLane "oneway" = some (.s "yes")
    ∧ (makeCyclewayBuffers mCfg segOnewayLane).cycleway_left = some (.s "lane")
    ∧ (makeCyclewayBuffers mCfg segOnewayLane).cycleway_right = some (.s "lane")
    ∧ (makeCyclewayBuffers mCfg segOnewayLane).cycleway_left_width = some (.n (8/5))
    ∧ (makeCyclewayBuffers mCfg segOnewayLane).cycleway_right_width = some (.n (8/5))
    ∧ calcFeatureWidth mCfg segOnewayLane "yes" = some (some (19/5), []) := by
  refine ⟨?_, by with_unfolding_all decide, by with_unfolding_all decide,
    by with_unfolding_all decide, by with_unfolding_all decide,
    by with_unfolding_all decide, by with_unfolding_all decide⟩
  intro seg v
  unfold makeCyclewayBuffers
  rw [getCyclewayAttributes_ow]

theorem facWidthCurve_first (cfg : Config) (wt acc : Option String) (cw2 : ℚ)
    (hdamp : (sMem wt ["bicycle road", "shared road", "shared traffic lane",
        "track or service"] && accessInDict cfg acc) = false)
    (hc : cw2 ≤ 3 ∨ sMem wt sharedFiveTypes = true) :
    facWidthCurve cfg wt acc cw2
      = 11/10 / (1 + 20 * Real.exp (-(21/10) * (cw2 : ℝ))) := by
  unfold facWidthCurve facWidthRaw
  rw [hdamp]
  simp only [Bool.false_eq_true, if_false]
  rw [if_pos hc]

theorem facWidthCurve_second (cfg : Config) (wt acc : Option String) (cw2 : ℚ)
    (hdamp : (sMem wt ["bicycle road", "shared road", "shared traffic lane",
        "track or service"] && accessInDict cfg acc) = false)
    (hc : ¬(cw2 ≤ 3 ∨ sMem wt sharedFiveTypes = true)) :
    facWidthCurve cfg wt acc cw2
      = 2 / (1 + (9/5) * Real.exp (-(6/25) * (cw2 : ℝ))) := by
  unfold facWidthCurve facWidthRaw
  rw [hdamp]
  simp only [Bool.false_eq_true, if_false]
  rw [if_neg hc]

theorem fwBus_eq : fwBus = roundQ3R (max ((0 : ℚ) : ℝ)
    (11/10 / (1 + 20 * Real.exp (-(21/10) * ((1/2 : ℚ) : ℝ))))) := by
  have h0 : fwBus = roundQ3R (max ((0 : ℚ) : ℝ)
      (facWidthCurve mCfg (some "shared bus lane") (some "no") (1/2))) := by
    with_unfolding_all rfl
  rw [h0, facWidthCurve_first mCfg (some "shared bus lane") (some "no") (1/2)
    (by with_unfolding_all decide) (Or.inl (by norm_num))]

theorem fwBus_lt_quarter : fwBus < 1/4 := by
  rw [fwBus_eq]
  have hcast : ((1/2 : ℚ) : ℝ) = 1/2 := by norm_num
  rw [hcast]
  have harg : -(21/10) * ((1:ℝ)/2) = -(21/20) := by norm_num
  rw [harg]
  have hzero : ((0 : ℚ) : ℝ) = 0 := by norm_num
  rw [hzero]
  have h1 : Real.exp (21/20) = Real.exp 1 * Real.exp (1/20) := by
    rw [← Real.exp_add]
    norm_num
  have h2 : Real.exp (1/20) ≤ (1 - 1/20 : ℝ)⁻¹ := exp_le_inv_one_sub (by norm_num)
  have h3 : Real.exp 1 < 2.7182818286 := Real.exp_one_lt_d9
  have h4 : Real.exp (21/20) ≤ 2.7182818286 * (20/19 : ℝ) := by
    rw [h1]
    have : ((1 : ℝ) - 1/20)⁻¹ = 20/19 := by norm_num
    rw [this] at h2
    nlinarith [Real.exp_pos (1/20), Real.exp_pos 1]
  have h5 : Real.exp (-(21/20)) = (Real.exp (21/20))⁻¹ := Real.exp_neg _
  have hep : (0:ℝ) < Real.exp (21/20) := Real.exp_pos _
  have h6 : (19 / (20 * 2.7182818286) : ℝ) ≤ Real.exp (-(21/20)) := by
    rw [h5]
    rw [le_inv_comm₀ (by norm_num) hep]
    calc Real.exp (21/20) ≤ 2.7182818286 * (20/19 : ℝ) := h4
      _ = (19 / (20 * 2.7182818286) : ℝ)⁻¹ := by norm_num
  have h7 : (1:ℝ) + 20 * (19 / (20 * 2.7182818286)) ≤
      1 + 20 * Real.exp (-(21/20)) := by linarith
  have h8 : (11/10 : ℝ) / (1 + 20 * Real.exp (-(21/20))) ≤ 139/1000 := by
    rw [div_le_iff₀ (by nlinarith [Real.exp_pos (-(21/20))])]
    nlinarith
  have h9 : max (0 : ℝ) (11/10 / (1 + 20 * Real.exp (-(21/20)))) ≤ 139/1000 := by
    apply max_le _ h8
    norm_num
  have h10 := (roundQ3R_close (max (0 : ℝ)
      (11/10 / (1 + 20 * Real.exp (-(21/20)))))).2
  have h11 : ((roundQ3R (max (0 : ℝ)
      (11/10 / (1 + 20 * Real.exp (-(21/20))))) : ℚ) : ℝ) < 1/4 := by
    linarith
  by_contra hcon
  push_neg at hcon
  have hle : ((1/4 : ℚ) : ℝ) ≤ ((roundQ3R (max (0 : ℝ)
      (11/10 / (1 + 20 * Real.exp (-(21/20))))) : ℚ) : ℝ) := Rat.cast_le.mpr hcon
  have hq : ((1/4 : ℚ) : ℝ) = (1/4 : ℝ) := by norm_num
  rw [hq] at hle
  linarith

theorem fwLane_eq : fwLane = roundQ3R (max ((0 : ℚ) : ℝ)
    (2 / (1 + (9/5) * Real.exp (-(6/25) * ((160 : ℚ) : ℝ))))) := by
  have h0 : fwLane = roundQ3R (max ((0 : ℚ) : ℝ)
      (facWidthCurve mCfg (some "cycle lane (exclusive)") none (160))) := by
    with_unfolding_all rfl
  rw [h0, facWidthCurve_second mCfg (some "cycle lane (exclusive)") none 160
    (by with_unfolding_all decide)
    (fun h => h.elim (fun h1 => by norm_num at h1)
      (fun h2 => absurd h2 (by with_unfolding_all decide)))]

theorem fwLane_bounds : (19/10 : ℚ) ≤ fwLane ∧ fwLane ≤ 2 := by
  rw [fwLane_eq]
  have hcast : ((160 : ℚ) : ℝ) = 160 := by norm_num
  rw [hcast]
  have harg : -(6/25) * (160 : ℝ) = -(192/5) := by norm_num
  rw [harg]
  have hzero : ((0 : ℚ) : ℝ) = 0 := by norm_num
  rw [hzero]
  have hE : (0 : ℝ) < Real.exp (-(192/5)) := Real.exp_pos _
  have h5 : (5 : ℝ) ≤ Real.exp 4 := by
    have := Real.add_one_le_exp (4 : ℝ)
    linarith
  have h36 : Real.exp 36 = (Real.exp 4) ^ (9 : ℕ) := by
    rw [← Real.exp_nat_mul]
    norm_num
  have hp9 : (5 : ℝ) ^ (9 : ℕ) ≤ (Real.exp 4) ^ (9 : ℕ) :=
    pow_le_pow_left₀ (by norm_num) h5 9
  have h59 : ((1953125 : ℝ)) ≤ Real.exp 36 := by
    rw [h36]
    calc (1953125 : ℝ) = 5 ^ (9 : ℕ) := by norm_num
      _ ≤ (Real.exp 4) ^ (9 : ℕ) := hp9
  have hmono : Real.exp 36 ≤ Real.exp (192/5) :=
    Real.exp_le_exp.mpr (by norm_num)
  have hbig : (1953125 : ℝ) ≤ Real.exp (192/5) := le_trans h59 hmono
  have hEle : Real.exp (-(192/5)) ≤ 1/1953125 := by
    rw [Real.exp_neg]
    rw [inv_le_comm₀ (by positivity) (by norm_num)]
    calc (1/1953125 : ℝ)⁻¹ = 1953125 := by norm_num
      _ ≤ Real.exp (192/5) := hbig
  have hdenpos : (0 : ℝ) < 1 + (9/5) * Real.exp (-(192/5)) := by nlinarith
  have hcurve_ge : (19/10 : ℝ) + 1/2000
      ≤ 2 / (1 + (9/5) * Real.exp (-(192/5))) := by
    rw [le_div_iff₀ hdenpos]
    nlinarith
  have hcurve_lt : 2 / (1 + (9/5) * Real.exp (-(192/5))) < 2 := by
    rw [div_lt_iff₀ hdenpos]
    nlinarith
  constructor
  · have hx : (19/10 : ℝ) + 1/2000
        ≤ max (0 : ℝ) (2 / (1 + (9/5) * Real.exp (-(192/5)))) :=
      le_trans hcurve_ge (le_max_right _ _)
    have h10 := (roundQ3R_close (max (0 : ℝ)
        (2 / (1 + (9/5) * Real.exp (-(192/5)))))).1
    have h11 : (19/10 : ℝ) ≤ ((roundQ3R (max (0 : ℝ)
        (2 / (1 + (9/5) * Real.exp (-(192/5))))) : ℚ) : ℝ) := by
      linarith
    have hq : ((19/10 : ℚ) : ℝ) = (19/10 : ℝ) := by norm_num
    rw [← hq] at h11
    exact Rat.cast_le.mp h11
  · apply roundQ3R_le_two
    apply max_lt (by norm_num) hcurve_lt

theorem fac1Of_excellent {v : ℚ} (hv : 1 ≤ v) :
    fac1Of (some v) (11/10) = v/2 + 11/20 := by
  have hne : (v == 0) = false := by
    rw [beq_eq_false_iff_ne]
    intro h0
    rw [h0] at hv
    norm_num at hv
  have h1110 : (((11 : ℚ)/10) == 0) = false := by with_unfolding_all rfl
  unfold fac1Of
  simp only [oqTruthy, hne, h1110, Bool.not_false, Bool.and_self, if_true,
    eq_self_iff_true, Option.getD_some]
  rw [max_eq_right (by linarith : (1 : ℚ) - v ≤ 0)]
  rw [max_eq_right (by norm_num : (1 : ℚ) - 11/10 ≤ 0)]
  field_simp
  ring

theorem indexOf_eq_hundred {b : ℤ} {f1 f2 f3 f4 : ℚ}
    (h : 100 ≤ (b : ℚ) * f1 * f2 * f3 * f4) : indexOf b f1 f2 f3 f4 = 100 := by
  unfold indexOf
  rw [min_eq_left h, max_eq_left (by norm_num)]
  simpa using roundHEQ_intCast 100

/-- C5 (amended): whenever `fac_width` is defined it lies in `[0, 2]` after
rounding, and the `0.25` floor applies exactly to the shared/mixed way
types whose motor-vehicle access is not `no` (the branch test of
cycling_quality_index.py:1396 sends shared types with `motor_vehicle=no`
to the dedicated branch, whose floor is `0`). -/
theorem c5_fac_width_bounds (cfg : Config) (wt acc : Option String)
    (pw : Option ℚ) (ow : String) (v : ℚ)
    (h : facWidthOf cfg wt acc pw ow = some v) :
    (0 ≤ v ∧ v ≤ 2)
    ∧ (sMem wt sharedFiveTypes = true → (acc == some "no") = false → 1/4 ≤ v) := by
  unfold facWidthOf at h
  simp only [] at h
  split at h
  · rw [Option.some_inj] at h
    subst h
    obtain ⟨hc1, hc2⟩ := facWidthCurve_bounds cfg wt acc
      (max (1/1000) (calcWidthOf wt acc pw ow))
    refine ⟨⟨?_, ?_⟩, ?_⟩
    · exact roundQ3R_nonneg (le_trans hc1.le (le_max_right _ _))
    · apply roundQ3R_le_two
      apply max_lt _ hc2
      split <;> norm_num
    · intro hs hacc
      have hd : widthDedicated wt acc = false := by
        unfold widthDedicated
        rw [hs, hacc]
        rfl
      rw [hd]
      apply roundQ3R_ge_quarter
      apply le_trans _ (le_max_left _ _)
      norm_num
  · exact Option.noConfusion h

/-- C5 witness: a plain shared road of width `4`. -/
theorem c5_fac_width_bounds_witness :
    ((0 ≤ fwC5 ∧ fwC5 ≤ 2)
      ∧ (sMem (some "shared road") sharedFiveTypes = true
         → ((none : Option String) == some "no") = false → 1/4 ≤ fwC5)) :=
  c5_fac_width_bounds mCfg (some "shared road") none (some 4) "no" fwC5
    (by with_unfolding_all rfl)

/-- C5 counterexample to the unconditional `0.25` floor for shared/mixed
types: `segBus` is a shared bus lane (a shared/mixed way type) with
`motor_vehicle=no` and a narrow lane, and its defined width factor is
below `0.25`. -/
theorem c5_counterexample :
    sMem segBus.wayType sharedFiveTypes = true
    ∧ ∃ out, evalSegment mCfg none segBus = some out
        ∧ out.facWidth = some fwBus
        ∧ fwBus < 1/4 := by
  refine ⟨by with_unfolding_all decide,
    (evalSegment mCfg none segBus).getD dummySegOut,
    by with_unfolding_all rfl, by with_unfolding_all rfl, fwBus_lt_quarter⟩

/-- C7 (amended): adding `bicycle=permissive` lowers `fac_4` by exactly
`0.2`, appends the malus `cycling not intended`, and never yields a
*higher* index (with a non-negative product of the other factors); the
strict decrease of the claim fails under clamping, see the
counterexample. -/
theorem c7_permissive_malus (cfg : Config) (seg : Seg) (tc : TCtx) (b : ℤ)
    (f1 f2 f3 : ℚ) (hbic : getTag seg "bicycle" = none)
    (hpre : 0 ≤ (b : ℚ) * f1 * f2 * f3) :
    (fac4Of cfg (setTag seg "bicycle" (.s "permissive")) tc).1
        = (fac4Of cfg seg tc).1 - 1/5
    ∧ (fac4Of cfg (setTag seg "bicycle" (.s "permissive")) tc).2.2.1
        = (fac4Of cfg seg tc).2.2.1 ++ ["cycling not intended"]
    ∧ indexOf b f1 f2 f3 (fac4Of cfg (setTag seg "bicycle" (.s "permissive")) tc).1
        ≤ indexOf b f1 f2 f3 (fac4Of cfg seg tc).1 := by
  obtain ⟨hp, hq⟩ := fac4Of_perm cfg seg tc hbic
  refine ⟨?_, ?_, ?_⟩
  · rw [hp, hq]
  · rw [hp, hq]
  · apply indexOf_mono_f4 hpre
    rw [hp, hq]
    linarith [le_refl (fac4Core cfg seg tc).1]

/-- C7 witness: the favourable exclusive cycle lane `segLane`. -/
theorem c7_permissive_malus_witness :
    (fac4Of mCfg (setTag segLane "bicycle" (.s "permissive"))
        (trafficCtxOf mCfg segLane)).1
      = (fac4Of mCfg segLane (trafficCtxOf mCfg segLane)).1 - 1/5
    ∧ (fac4Of mCfg (setTag segLane "bicycle" (.s "permissive"))
        (trafficCtxOf mCfg segLane)).2.2.1
      = (fac4Of mCfg segLane (trafficCtxOf mCfg segLane)).2.2.1
          ++ ["cycling not intended"]
    ∧ indexOf 80 1 1 1 (fac4Of mCfg (setTag segLane "bicycle" (.s "permissive"))
        (trafficCtxOf mCfg segLane)).1
      ≤ indexOf 80 1 1 1 (fac4Of mCfg segLane (trafficCtxOf mCfg segLane)).1 :=
  c7_permissive_malus mCfg segLane (trafficCtxOf mCfg segLane) 80 1 1 1
    (by with_unfolding_all rfl) (by norm_num)

/-- C7 counterexample to the *strict* index decrease: on the very wide
excellent lane `segLane`, the permissive malus is applied (`fac_4` drops by
`0.2` and the malus tag is added) yet both records clamp to index `100` —
the index is not strictly lower. -/
theorem c7_counterexample :
    ∃ o1 o2, evalSegment mCfg none segLane = some o1
      ∧ evalSegment mCfg none segLaneP = some o2
      ∧ (fac4Of mCfg segLaneP (trafficCtxOf mCfg segLaneP)).1
          = (fac4Of mCfg segLane (trafficCtxOf mCfg segLane)).1 - 1/5
      ∧ ((fac4Of mCfg segLaneP (trafficCtxOf mCfg segLaneP)).2.2.1).contains
          "cycling not intended" = true
      ∧ o1.index = some 100 ∧ o2.index = some 100 := by
  have hfac1 : fac1Of (some fwLane) (11/10) = fwLane/2 + 11/20 :=
    fac1Of_excellent (by linarith [fwLane_bounds.1])
  have hfw19 := fwLane_bounds.1
  refine ⟨(evalSegment mCfg none segLane).getD dummySegOut,
    (evalSegment mCfg none segLaneP).getD dummySegOut,
    by with_unfolding_all rfl, by with_unfolding_all rfl,
    by with_unfolding_all decide, by with_unfolding_all decide, ?_, ?_⟩
  · have h1 : ((evalSegment mCfg none segLane).getD dummySegOut).index
        = some (indexOf 80 (fac1Of (some fwLane) (11/10)) 1 1 (21/20)) := by
      with_unfolding_all rfl
    rw [h1]
    rw [indexOf_eq_hundred]
    rw [hfac1]
    push_cast
    nlinarith
  · have h2 : ((evalSegment mCfg none segLaneP).getD dummySegOut).index
        = some (indexOf 80 (fac1Of (some fwLane) (11/10)) 1 1 (17/20)) := by
      with_unfolding_all rfl
    rw [h2]
    rw [indexOf_eq_hundred]
    rw [hfac1]
    push_cast
    nlinarith
